import Mathlib

/-!
# Verification of the g2g MikroTik traffic-alert core

Shallow embedding of the alert pipeline of the repository:

* `monitor.js` — the sampler: parsing of queue `rate` strings
  (`parseInt(q.rate?.split('/')[i] || 0)`) and computation of
  `totalKb = (rx + tx) / 1024`;
* `services/AlertManager.js` — the evaluator: the in-memory tracking map,
  the `alerts` and `alert_history` tables, `checkAlert`, `restoreState`,
  `createAlertRecord`, `resolveAlert`, `sendFirstAlert`, `sendSecondAlert`,
  `sendRecoveryNotification`, `recordAlertHistory`;
* `services/NotificationService.js` — the dispatcher: `sendAlert` fan-out
  over enabled channels with per-channel isolation.

JavaScript numbers that can be `NaN` are modelled by `JsNum`; JavaScript
truthiness of a possibly-`null` timestamp by `jsTruthy`.  Clock readings
(`Date.now()`, milliseconds) are natural numbers; `unixepoch()` (seconds,
same wall clock) is modelled as `now / 1000`.  Realistic clock readings are
at least `1000` (one second past the epoch; the real clock is ≈ 1.7·10¹²).
-/

namespace G2G

/-! ## JavaScript number semantics -/

/-- A JavaScript number as it appears in this code path: either `NaN`
(produced by `parseInt` on a string with no leading digits) or a rational
value. -/
inductive JsNum where
  | nan : JsNum
  | val : ℚ → JsNum
deriving DecidableEq, Repr

/-- JavaScript `+`: `NaN` is absorbing. -/
def jsAdd : JsNum → JsNum → JsNum
  | JsNum.val a, JsNum.val b => JsNum.val (a + b)
  | _, _ => JsNum.nan

/-- JavaScript division by the nonzero literal `1024`: `NaN` propagates. -/
def jsDiv1024 : JsNum → JsNum
  | JsNum.val a => JsNum.val (a / 1024)
  | JsNum.nan => JsNum.nan

/-- JavaScript `<`: any comparison involving `NaN` is `false`. -/
def jsLt : JsNum → JsNum → Bool
  | JsNum.val a, JsNum.val b => decide (a < b)
  | _, _ => false

/-! ## `parseInt` and rate-string parsing (`monitor.js`, lines 52–54)

The code is `parseInt(q.rate?.split('/')[0] || 0)` (and `[1]` for `tx`).
The `|| 0` replaces a *falsy string* (the empty string, or `undefined` when
the component or the whole `rate` field is missing) by the number `0`, and
`parseInt(0)` is `0`.  A non-empty string is passed to `parseInt` as is:
`parseInt` skips leading whitespace, accepts an optional sign, and reads
leading decimal digits; with no leading digit it returns `NaN`. -/

/-- Characters `parseInt` skips as leading whitespace. -/
def isJsSpace (c : Char) : Bool :=
  c = ' ' || c = '\t' || c = '\n' || c = '\r'

/-- Numeric value of a list of decimal digit characters. -/
def digitsToNat (ds : List Char) : ℕ :=
  ds.foldl (fun a c => 10 * a + (c.toNat - 48)) 0

/-- JavaScript `parseInt` on a string (here as its character list, radix
10): leading whitespace, an optional sign, then the longest run of leading
digits; `NaN` when that run is empty.  Trailing garbage is ignored. -/
def parseIntJS (s : List Char) : JsNum :=
  let cs := s.dropWhile isJsSpace
  let signAndRest : Bool × List Char :=
    match cs with
    | '-' :: rest => (true, rest)
    | '+' :: rest => (false, rest)
    | _ => (false, cs)
  let ds := signAndRest.2.takeWhile Char.isDigit
  if ds.isEmpty then JsNum.nan
  else if signAndRest.1 then JsNum.val (-(digitsToNat ds : ℚ))
  else JsNum.val (digitsToNat ds : ℚ)

/-- JavaScript `String.prototype.split('/')`: the empty string splits to
`[""]`, and every `'/'` starts a new (possibly empty) component. -/
def splitOnSlash : List Char → List (List Char)
  | [] => [[]]
  | c :: rest =>
    if c = '/' then [] :: splitOnSlash rest
    else
      match splitOnSlash rest with
      | [] => [[c]]
      | h :: t => (c :: h) :: t

/-- One component of `parseInt(q.rate?.split('/')[i] || 0)`.  `rate = none`
models a row without a `rate` field (`q.rate` is `undefined`, so the
optional chain yields `undefined` and `|| 0` applies); a missing or empty
component is likewise falsy, so `|| 0` replaces it by the number `0` and
`parseInt(0) = 0`. -/
def rateComponent (rate : Option String) (i : ℕ) : JsNum :=
  match rate with
  | none => JsNum.val 0
  | some s =>
    match (splitOnSlash s.data)[i]? with
    | none => JsNum.val 0
    | some part => if part.isEmpty then JsNum.val 0 else parseIntJS part

/-- The `(rx, tx)` pair the sampler computes for one queue row. -/
def parseRate (rate : Option String) : JsNum × JsNum :=
  (rateComponent rate 0, rateComponent rate 1)

/-- `totalKb = (rx + tx) / 1024` (`monitor.js`, line 54). -/
def totalKbOf (rate : Option String) : JsNum :=
  jsDiv1024 (jsAdd (parseRate rate).1 (parseRate rate).2)

/-- The row the sampler inserts into `traffic_log` for one queue
(`monitor.js`, lines 57–64): name, parsed `rx`/`tx`, `now` in seconds. -/
structure SampleRow where
  name : String
  rx : JsNum
  tx : JsNum
  timestamp : ℕ
deriving DecidableEq, Repr

/-- `INSERT INTO traffic_log (name, rx, tx, timestamp) VALUES (?,?,?,?)`
with the parsed components and `Math.floor(now / 1000)`. -/
def sampleOf (name : String) (rate : Option String) (now : ℕ) : SampleRow :=
  { name := name
    rx := (parseRate rate).1
    tx := (parseRate rate).2
    timestamp := now / 1000 }

/-! ## The evaluator: `services/AlertManager.js`

Tracking entries are `{first, alerted, second}` objects; `first` is `null`
or a millisecond timestamp.  `if (!track.first)` is JavaScript truthiness;
`now - track.first` treats `null` as `0`, which `Option.getD 0` models
exactly. -/

/-- One entry of `this.tracking` (`AlertManager` constructor, line 92). -/
structure Track where
  first : Option ℕ
  alerted : Bool
  second : Bool
deriving DecidableEq, Repr

/-- `{ first: null, alerted: false, second: false }`. -/
def Track.fresh : Track := ⟨none, false, false⟩

/-- JavaScript truthiness of `track.first`: `null` and `0` are falsy. -/
def jsTruthy : Option ℕ → Bool
  | none => false
  | some t => decide (t ≠ 0)

/-- A row of the `alerts` table (`db.js`, lines 28–36): `notified_first`
and `notified_second` are SQLite integers with `DEFAULT 0`; `end_time`
is `NULL` while the alert is open. -/
structure AlertRow where
  name : String
  start_time : ℕ
  notified_first : ℕ
  notified_second : ℕ
  end_time : Option ℕ
deriving DecidableEq, Repr

/-- A row of the `alert_history` table
(`AlertManager.recordAlertHistory`). -/
structure HistoryRow where
  name : String
  alert_type : String
  traffic_kb : JsNum
  threshold_kb : JsNum
  triggered_at : ℕ
deriving DecidableEq, Repr

/-- One dispatch request handed to `notificationService.sendAlert` — the
argument object of the `sendAlert({name, trafficKb, ip, threshold, type})`
calls in `AlertManager`. -/
structure Notification where
  name : String
  type : String
  trafficKb : JsNum
  threshold : JsNum
deriving DecidableEq, Repr

/-- The configuration knobs `checkAlert` reads (`config/default.js`):
`monitoring.alertDelayMs`, `monitoring.secondAlertMs`,
`alertConfig.sendRecoveryNotifications`. -/
structure Config where
  alertDelayMs : ℤ
  secondAlertMs : ℤ
  sendRecoveryNotifications : Bool

/-- The repository defaults: 10 minutes, 3 hours, recovery
notifications off. -/
def defaultConfig : Config :=
  { alertDelayMs := 600000, secondAlertMs := 10800000
    sendRecoveryNotifications := false }

/-- The evaluator's state: the in-memory tracking map plus the durable
`alerts` and `alert_history` tables. -/
structure AMState where
  tracking : String → Option Track
  alerts : List AlertRow
  history : List HistoryRow

/-- `this.tracking.set(name, track)`. -/
def mapSet (m : String → Option Track) (k : String) (v : Track) :
    String → Option Track :=
  fun n => if n = k then some v else m n

/-- `this.tracking.delete(name)`. -/
def mapDelete (m : String → Option Track) (k : String) :
    String → Option Track :=
  fun n => if n = k then none else m n

/-- `INSERT INTO alerts (name, start_time) VALUES (?, unixepoch())`
(`createAlertRecord`); the remaining columns take their defaults. -/
def createAlertRecord (alerts : List AlertRow) (name : String)
    (nowSec : ℕ) : List AlertRow :=
  alerts ++ [{ name := name, start_time := nowSec, notified_first := 0
               notified_second := 0, end_time := none }]

/-- `UPDATE alerts SET notified_first = 1 WHERE name = ? AND end_time IS
NULL` (`sendFirstAlert`). -/
def setNotifiedFirst (alerts : List AlertRow) (name : String) :
    List AlertRow :=
  alerts.map fun a =>
    if a.name = name ∧ a.end_time = none then { a with notified_first := 1 }
    else a

/-- `UPDATE alerts SET notified_second = 1 WHERE name = ? AND end_time IS
NULL` (`sendSecondAlert`). -/
def setNotifiedSecond (alerts : List AlertRow) (name : String) :
    List AlertRow :=
  alerts.map fun a =>
    if a.name = name ∧ a.end_time = none then { a with notified_second := 1 }
    else a

/-- `UPDATE alerts SET end_time = unixepoch() WHERE name = ? AND end_time
IS NULL` (`resolveAlert`). -/
def resolveAlertRows (alerts : List AlertRow) (name : String)
    (nowSec : ℕ) : List AlertRow :=
  alerts.map fun a =>
    if a.name = name ∧ a.end_time = none then { a with end_time := some nowSec }
    else a

/-- `INSERT INTO alert_history (name, alert_type, traffic_kb,
threshold_kb, triggered_at) VALUES (?, ?, ?, ?, unixepoch())`
(`recordAlertHistory`). -/
def recordHistory (history : List HistoryRow) (name alertType : String)
    (kb thr : JsNum) (nowSec : ℕ) : List HistoryRow :=
  history ++ [{ name := name, alert_type := alertType, traffic_kb := kb
                threshold_kb := thr, triggered_at := nowSec }]

/-- `now - track.first >= delay`, with `null` coerced to `0` as in
JavaScript subtraction. -/
def delayElapsed (now : ℕ) (first : Option ℕ) (delay : ℤ) : Bool :=
  decide (delay ≤ (now : ℤ) - (first.getD 0 : ℕ))

/-- `AlertManager.checkAlert(name, totalKb, target, threshold)` at clock
reading `now = Date.now()` (milliseconds).  Returns the successor state
and the list of dispatch requests issued to the notification service
during the call, in order.  The `target` argument only flows into
notification text and is omitted.  `unixepoch()` is `now / 1000`. -/
def checkAlert (cfg : Config) (st : AMState) (name : String)
    (totalKb threshold : JsNum) (now : ℕ) : AMState × List Notification :=
  let track0 := (st.tracking name).getD Track.fresh
  if jsLt totalKb threshold then
    -- traffic is below threshold
    let p1 : Track × List AlertRow :=
      if jsTruthy track0.first then (track0, st.alerts)
      else ({ track0 with first := some now },
            createAlertRecord st.alerts name (now / 1000))
    let track1 := p1.1
    let fire1 := !track1.alerted && delayElapsed now track1.first cfg.alertDelayMs
    let track2 := if fire1 then { track1 with alerted := true } else track1
    let alerts2 := if fire1 then setNotifiedFirst p1.2 name else p1.2
    let hist2 := if fire1 then
        recordHistory st.history name "first" totalKb threshold (now / 1000)
      else st.history
    let fire2 := track2.alerted && !track2.second &&
        delayElapsed now track2.first cfg.secondAlertMs
    let track3 := if fire2 then { track2 with second := true } else track2
    let alerts3 := if fire2 then setNotifiedSecond alerts2 name else alerts2
    let hist3 := if fire2 then
        recordHistory hist2 name "second" totalKb threshold (now / 1000)
      else hist2
    (⟨mapSet st.tracking name track3, alerts3, hist3⟩,
     (if fire1 then [⟨name, "first", totalKb, threshold⟩] else []) ++
     (if fire2 then [⟨name, "second", totalKb, threshold⟩] else []))
  else
    -- traffic is back above threshold
    if jsTruthy track0.first then
      (⟨mapDelete st.tracking name,
        resolveAlertRows st.alerts name (now / 1000),
        recordHistory st.history name "recovery" totalKb (JsNum.val 0) (now / 1000)⟩,
       if cfg.sendRecoveryNotifications then
         [⟨name, "recovery", totalKb, JsNum.val 0⟩]
       else [])
    else
      (⟨mapDelete st.tracking name, st.alerts, st.history⟩, [])

/-- The tracking entry `restoreState` builds from one open alert row:
`{ first: start_time * 1000, alerted: notified_first === 1,
second: notified_second === 1 }`. -/
def restoreTrack (a : AlertRow) : Track :=
  { first := some (a.start_time * 1000)
    alerted := decide (a.notified_first = 1)
    second := decide (a.notified_second = 1) }

/-- `AlertManager.restoreState`: `SELECT … FROM alerts WHERE end_time IS
NULL`, then `forEach` inserting into the (initially empty) tracking
map. -/
def restoreState (alerts : List AlertRow) : String → Option Track :=
  (alerts.filter fun a => a.end_time.isNone).foldl
    (fun m a => mapSet m a.name (restoreTrack a)) (fun _ => none)

/-- A fresh process against an empty database. -/
def initState : AMState := ⟨fun _ => none, [], []⟩

/-- Reachability under the poll-cycle step relation: the empty start, one
`checkAlert` evaluation per step (clock readings are realistic:
`Date.now() ≥ 1000`, one second past the epoch), and process restart,
which keeps the durable tables and rebuilds the tracking map via
`restoreState`. -/
inductive Reachable (cfg : Config) : AMState → Prop where
  | init : Reachable cfg initState
  | step (st : AMState) (name : String) (tkb thr : JsNum) (now : ℕ) :
      Reachable cfg st → 1000 ≤ now →
      Reachable cfg (checkAlert cfg st name tkb thr now).1
  | boot (st : AMState) :
      Reachable cfg st →
      Reachable cfg ⟨restoreState st.alerts, st.alerts, st.history⟩

/-! ## The dispatcher: `services/NotificationService.js` -/

/-- A configured channel as `sendAlert` sees it: its name, its
administrative `enabled` flag, and the outcome its `send` call would
produce for this event (`none` — the send resolves; `some e` — the send
throws/rejects with message `e`). -/
structure Channel where
  name : String
  enabled : Bool
  thrown : Option String
deriving DecidableEq, Repr

/-- One element of the list `sendAlert` resolves with: the value produced
for a channel by the `try`/`catch` inside the `Promise.allSettled`
mapper. -/
structure ChannelResult where
  channel : String
  success : Bool
  error : Option String
deriving DecidableEq, Repr

/-- `NotificationService.sendAlert`: filter to enabled channels, attempt
every one, convert each outcome to a result object — a thrown error is
caught and reported as `success: false` with the error message, and never
propagates.  With no enabled channels the early return yields `[]`, which
coincides with mapping over the empty filter. -/
def sendAlertChannels (channels : List Channel) : List ChannelResult :=
  (channels.filter fun c => c.enabled).map fun c =>
    match c.thrown with
    | none => { channel := c.name, success := true, error := none }
    | some e => { channel := c.name, success := false, error := some e }

/-! ## Reachable-state invariants of the evaluator -/

/-- `Bool` test for "row of entity `n` that is still open". -/
def isOpenFor (n : String) (a : AlertRow) : Bool :=
  decide (a.name = n ∧ a.end_time = none)

/-- The open alert rows of entity `n` — `SELECT * FROM alerts WHERE name =
n AND end_time IS NULL`. -/
def openFor (alerts : List AlertRow) (n : String) : List AlertRow :=
  alerts.filter (isOpenFor n)

/-- The inductive invariant of reachable evaluator states, over the
tracking map and the `alerts` table (the history table plays no role).
Its fields tie the tracking map to the durable rows: per entity at most
one open row; every open row has a (truthy) tracking entry; persisted
start times are positive; the `notified_*` flags and the in-memory
booleans are ordered (second implies first); and a tracking entry marked
`alerted` means the open rows of that entity already carry
`notified_first = 1`. -/
structure Inv (tracking : String → Option Track)
    (alerts : List AlertRow) : Prop where
  openUnique : ∀ n, (openFor alerts n).length ≤ 1
  openTracked : ∀ a ∈ alerts, a.end_time = none →
      ∃ t, tracking a.name = some t
  startPos : ∀ a ∈ alerts, 1 ≤ a.start_time
  flagsOrdered : ∀ a ∈ alerts, a.end_time = none →
      a.notified_second = 1 → a.notified_first = 1
  trackTruthy : ∀ n t, tracking n = some t → jsTruthy t.first = true
  trackOrdered : ∀ n t, tracking n = some t → t.second = true →
      t.alerted = true
  alertedPersisted : ∀ n t, tracking n = some t → t.alerted = true →
      ∀ a ∈ alerts, a.name = n → a.end_time = none →
      a.notified_first = 1

theorem mapSet_self (m : String → Option Track) (k : String) (v : Track) :
    mapSet m k v k = some v := by simp [mapSet]

theorem mapSet_other (m : String → Option Track) {k n : String}
    (v : Track) (h : n ≠ k) : mapSet m k v n = m n := by simp [mapSet, h]

theorem mapDelete_self (m : String → Option Track) (k : String) :
    mapDelete m k k = none := by simp [mapDelete]

theorem mapDelete_other (m : String → Option Track) {k n : String}
    (h : n ≠ k) : mapDelete m k n = m n := by simp [mapDelete, h]

theorem openFor_create (alerts : List AlertRow) (m : String) (s : ℕ)
    (n : String) :
    openFor (createAlertRecord alerts m s) n =
      openFor alerts n ++
        (if n = m then [⟨m, s, 0, 0, none⟩] else []) := by
  unfold openFor createAlertRecord
  rw [List.filter_append]
  congr 1
  by_cases h : n = m
  · subst h
    simp [isOpenFor, List.filter]
  · have hrow : isOpenFor n (⟨m, s, 0, 0, none⟩ : AlertRow) = false := by
      simp only [isOpenFor, decide_eq_false_iff_not]
      rintro ⟨h1, -⟩
      exact h h1.symm
    simp [List.filter, hrow, h]

theorem openFor_map_preserve (f : AlertRow → AlertRow)
    (hf : ∀ a, (f a).name = a.name ∧ (f a).end_time = a.end_time)
    (alerts : List AlertRow) (n : String) :
    openFor (alerts.map f) n = (openFor alerts n).map f := by
  induction alerts with
  | nil => rfl
  | cons a l ih =>
    have hname := (hf a).1
    have hend := (hf a).2
    by_cases h : isOpenFor n a = true
    · have hfa : isOpenFor n (f a) = true := by
        simp only [isOpenFor, decide_eq_true_eq] at h ⊢
        exact ⟨hname.trans h.1, hend.trans h.2⟩
      simp only [openFor, List.map_cons, List.filter_cons] at *
      simp [hfa, h, ih]
    · have h' : isOpenFor n a = false := by
        simpa using h
      have hfa : isOpenFor n (f a) = false := by
        simp only [isOpenFor, decide_eq_false_iff_not] at h' ⊢
        rw [hname, hend]
        exact h'
      simp only [openFor, List.map_cons, List.filter_cons] at *
      simp [hfa, h', ih]

theorem setNotifiedFirst_preserve (m : String) : ∀ a : AlertRow,
    ((if a.name = m ∧ a.end_time = none then { a with notified_first := 1 }
      else a) : AlertRow).name = a.name ∧
    ((if a.name = m ∧ a.end_time = none then { a with notified_first := 1 }
      else a) : AlertRow).end_time = a.end_time := by
  intro a; split <;> exact ⟨rfl, rfl⟩

theorem setNotifiedSecond_preserve (m : String) : ∀ a : AlertRow,
    ((if a.name = m ∧ a.end_time = none then { a with notified_second := 1 }
      else a) : AlertRow).name = a.name ∧
    ((if a.name = m ∧ a.end_time = none then { a with notified_second := 1 }
      else a) : AlertRow).end_time = a.end_time := by
  intro a; split <;> exact ⟨rfl, rfl⟩

theorem openFor_setNotifiedFirst_length (alerts : List AlertRow)
    (m n : String) :
    (openFor (setNotifiedFirst alerts m) n).length =
      (openFor alerts n).length := by
  unfold setNotifiedFirst
  rw [openFor_map_preserve _ (setNotifiedFirst_preserve m)]
  exact List.length_map _ _

theorem openFor_setNotifiedSecond_length (alerts : List AlertRow)
    (m n : String) :
    (openFor (setNotifiedSecond alerts m) n).length =
      (openFor alerts n).length := by
  unfold setNotifiedSecond
  rw [openFor_map_preserve _ (setNotifiedSecond_preserve m)]
  exact List.length_map _ _

theorem openFor_resolve_self (alerts : List AlertRow) (m : String)
    (s : ℕ) : openFor (resolveAlertRows alerts m s) m = [] := by
  induction alerts with
  | nil => rfl
  | cons a l ih =>
    simp only [resolveAlertRows, List.map_cons] at *
    by_cases h : a.name = m ∧ a.end_time = none
    · simpa [openFor, List.filter_cons, if_pos h, isOpenFor] using ih
    · simpa [openFor, List.filter_cons, if_neg h, isOpenFor, h] using ih

theorem openFor_resolve_other (alerts : List AlertRow) {m n : String}
    (s : ℕ) (h : n ≠ m) :
    openFor (resolveAlertRows alerts m s) n = openFor alerts n := by
  induction alerts with
  | nil => rfl
  | cons a l ih =>
    simp only [resolveAlertRows, List.map_cons] at *
    by_cases hc : a.name = m ∧ a.end_time = none
    · have h1 : isOpenFor n ({ a with end_time := some s } : AlertRow) = false := by
        simp [isOpenFor]
      have h2 : isOpenFor n a = false := by
        simp only [isOpenFor, decide_eq_false_iff_not]
        rintro ⟨h3, _⟩
        exact h (h3 ▸ hc.1 ▸ rfl)
      simp [openFor, List.filter_cons, if_pos hc, h1, h2] at *
      exact ih
    · simp only [openFor, List.filter_cons, if_neg hc] at *
      by_cases h4 : isOpenFor n a = true <;> simp [h4, ih]

theorem mem_setNotifiedFirst {alerts : List AlertRow} {m : String}
    {b : AlertRow} (hb : b ∈ setNotifiedFirst alerts m) :
    ∃ a ∈ alerts, b.name = a.name ∧ b.end_time = a.end_time ∧
      b.start_time = a.start_time ∧
      b.notified_second = a.notified_second ∧
      (b.notified_first = a.notified_first ∨
        (b.notified_first = 1 ∧ a.name = m ∧ a.end_time = none)) := by
  rcases List.mem_map.mp hb with ⟨a, ha, rfl⟩
  refine ⟨a, ha, ?_⟩
  split
  · next h => exact ⟨rfl, rfl, rfl, rfl, Or.inr ⟨rfl, h⟩⟩
  · exact ⟨rfl, rfl, rfl, rfl, Or.inl rfl⟩

theorem mem_setNotifiedSecond {alerts : List AlertRow} {m : String}
    {b : AlertRow} (hb : b ∈ setNotifiedSecond alerts m) :
    ∃ a ∈ alerts, b.name = a.name ∧ b.end_time = a.end_time ∧
      b.start_time = a.start_time ∧
      b.notified_first = a.notified_first ∧
      (b.notified_second = a.notified_second ∨
        (b.notified_second = 1 ∧ a.name = m ∧ a.end_time = none)) := by
  rcases List.mem_map.mp hb with ⟨a, ha, rfl⟩
  refine ⟨a, ha, ?_⟩
  split
  · next h => exact ⟨rfl, rfl, rfl, rfl, Or.inr ⟨rfl, h⟩⟩
  · exact ⟨rfl, rfl, rfl, rfl, Or.inl rfl⟩

/-- After `setNotifiedFirst alerts m`, every still-open row of entity `m`
carries `notified_first = 1`. -/
theorem setNotifiedFirst_open_self {alerts : List AlertRow} {m : String}
    {b : AlertRow} (hb : b ∈ setNotifiedFirst alerts m)
    (hbn : b.name = m) (hbo : b.end_time = none) :
    b.notified_first = 1 := by
  rcases List.mem_map.mp hb with ⟨a, _, rfl⟩
  revert hbn hbo
  split
  · intro _ _; rfl
  · intro hbn hbo
    next h => exact absurd ⟨hbn, hbo⟩ h

/-- After `setNotifiedSecond alerts m`, every still-open row of entity `m`
carries `notified_second = 1`. -/
theorem setNotifiedSecond_open_self {alerts : List AlertRow} {m : String}
    {b : AlertRow} (hb : b ∈ setNotifiedSecond alerts m)
    (hbn : b.name = m) (hbo : b.end_time = none) :
    b.notified_second = 1 := by
  rcases List.mem_map.mp hb with ⟨a, _, rfl⟩
  revert hbn hbo
  split
  · intro _ _; rfl
  · intro hbn hbo
    next h => exact absurd ⟨hbn, hbo⟩ h

theorem mem_resolveAlertRows {alerts : List AlertRow} {m : String} {s : ℕ}
    {b : AlertRow} (hb : b ∈ resolveAlertRows alerts m s) :
    ∃ a ∈ alerts, b.name = a.name ∧ b.start_time = a.start_time ∧
      b.notified_first = a.notified_first ∧
      b.notified_second = a.notified_second ∧
      (b.end_time = a.end_time ∨ b.end_time = some s) := by
  rcases List.mem_map.mp hb with ⟨a, ha, rfl⟩
  refine ⟨a, ha, ?_⟩
  split <;> simp

/-- A row that is still open after `resolveAlertRows alerts m s` was open
before and does not belong to entity `m`. -/
theorem resolve_open_mem {alerts : List AlertRow} {m : String} {s : ℕ}
    {b : AlertRow} (hb : b ∈ resolveAlertRows alerts m s)
    (hbo : b.end_time = none) : b ∈ alerts ∧ b.name ≠ m := by
  rcases List.mem_map.mp hb with ⟨a, ha, rfl⟩
  revert hbo
  split
  · intro hbo; cases hbo
  · intro hbo
    next h =>
    refine ⟨ha, fun hn => h ⟨hn, hbo⟩⟩

theorem mem_createAlertRecord {alerts : List AlertRow} {m : String}
    {s : ℕ} {b : AlertRow} (hb : b ∈ createAlertRecord alerts m s) :
    b ∈ alerts ∨ b = ⟨m, s, 0, 0, none⟩ := by
  simpa [createAlertRecord] using hb

/-- From the invariant: an entity without a tracking entry has no open
row. -/
theorem no_open_of_untracked {tracking : String → Option Track}
    {alerts : List AlertRow} (hInv : Inv tracking alerts) {n : String}
    (h : tracking n = none) :
    ∀ a ∈ alerts, a.name = n → a.end_time ≠ none := by
  intro a ha han hao
  rcases hInv.openTracked a ha hao with ⟨t, ht⟩
  rw [han, h] at ht
  cases ht

/-- From the invariant: a falsy looked-up entry means the entity is
absent from the tracking map. -/
theorem tracking_none_of_falsy {tracking : String → Option Track}
    {alerts : List AlertRow} (hInv : Inv tracking alerts) {n : String}
    (h : jsTruthy ((tracking n).getD Track.fresh).first = false) :
    tracking n = none := by
  cases hx : tracking n with
  | none => rfl
  | some t =>
    have := hInv.trackTruthy n t hx
    rw [hx] at h
    simp only [Option.getD_some] at h
    rw [this] at h
    cases h

theorem mapSet_mapSet (m : String → Option Track) (k : String)
    (u v : Track) : mapSet (mapSet m k u) k v = mapSet m k v := by
  funext n
  by_cases h : n = k <;> simp [mapSet, h]

theorem mapSet_same {m : String → Option Track} {k : String} {v : Track}
    (h : m k = some v) : mapSet m k v = m := by
  funext n
  by_cases hn : n = k
  · rw [hn, mapSet_self, h]
  · exact mapSet_other m v hn

theorem mapDelete_mapSet (m : String → Option Track) (k : String)
    (v : Track) : mapDelete (mapSet m k v) k = mapDelete m k := by
  funext n
  by_cases h : n = k <;> simp [mapDelete, mapSet, h]

/-! ### Branch evaluation of `checkAlert` -/

/-- `checkAlert`, below threshold, entity not tracked: a fresh entry and
a fresh open row are created; the first (and possibly, in the same call,
the second) alert still fires when the configured delay is already
elapsed at the crossing instant. -/
theorem checkAlert_below_untracked {cfg : Config} {st : AMState}
    {name : String} {tkb thr : JsNum} {now : ℕ}
    (hlt : jsLt tkb thr = true) (hx : st.tracking name = none) :
    checkAlert cfg st name tkb thr now =
      if delayElapsed now (some now) cfg.alertDelayMs then
        if delayElapsed now (some now) cfg.secondAlertMs then
          (⟨mapSet st.tracking name ⟨some now, true, true⟩,
            setNotifiedSecond (setNotifiedFirst
              (createAlertRecord st.alerts name (now / 1000)) name) name,
            recordHistory (recordHistory st.history name "first" tkb thr
              (now / 1000)) name "second" tkb thr (now / 1000)⟩,
           [⟨name, "first", tkb, thr⟩, ⟨name, "second", tkb, thr⟩])
        else
          (⟨mapSet st.tracking name ⟨some now, true, false⟩,
            setNotifiedFirst (createAlertRecord st.alerts name (now / 1000))
              name,
            recordHistory st.history name "first" tkb thr (now / 1000)⟩,
           [⟨name, "first", tkb, thr⟩])
      else
        (⟨mapSet st.tracking name ⟨some now, false, false⟩,
          createAlertRecord st.alerts name (now / 1000), st.history⟩,
         []) := by
  by_cases h1 : delayElapsed now (some now) cfg.alertDelayMs = true
  · by_cases h2 : delayElapsed now (some now) cfg.secondAlertMs = true <;>
      simp [checkAlert, hlt, hx, h1, h2, Track.fresh, jsTruthy]
  · simp only [Bool.not_eq_true] at h1
    simp [checkAlert, hlt, hx, h1, Track.fresh, jsTruthy]

/-- `checkAlert`, below threshold, entity already tracked (with a truthy
first-crossing time, as every reachable entry has): no new row;
escalation fires by the flags and elapsed delays, and a first alert fired
in this very call enables the second check of the same call. -/
theorem checkAlert_below_tracked {cfg : Config} {st : AMState}
    {name : String} {tkb thr : JsNum} {now : ℕ} {t0 : Track}
    (hlt : jsLt tkb thr = true) (hx : st.tracking name = some t0)
    (htr : jsTruthy t0.first = true) :
    checkAlert cfg st name tkb thr now =
      if !t0.alerted && delayElapsed now t0.first cfg.alertDelayMs then
        if !t0.second && delayElapsed now t0.first cfg.secondAlertMs then
          (⟨mapSet st.tracking name
              { t0 with alerted := true, second := true },
            setNotifiedSecond (setNotifiedFirst st.alerts name) name,
            recordHistory (recordHistory st.history name "first" tkb thr
              (now / 1000)) name "second" tkb thr (now / 1000)⟩,
           [⟨name, "first", tkb, thr⟩, ⟨name, "second", tkb, thr⟩])
        else
          (⟨mapSet st.tracking name { t0 with alerted := true },
            setNotifiedFirst st.alerts name,
            recordHistory st.history name "first" tkb thr (now / 1000)⟩,
           [⟨name, "first", tkb, thr⟩])
      else
        if t0.alerted && !t0.second &&
            delayElapsed now t0.first cfg.secondAlertMs then
          (⟨mapSet st.tracking name { t0 with second := true },
            setNotifiedSecond st.alerts name,
            recordHistory st.history name "second" tkb thr (now / 1000)⟩,
           [⟨name, "second", tkb, thr⟩])
        else
          (⟨mapSet st.tracking name t0, st.alerts, st.history⟩, []) := by
  by_cases ha : t0.alerted = true
  · have hf1 : (!t0.alerted && delayElapsed now t0.first cfg.alertDelayMs)
        = false := by simp [ha]
    by_cases hs : t0.second = true
    · simp [checkAlert, hlt, hx, htr, hf1, ha, hs]
    · simp only [Bool.not_eq_true] at hs
      by_cases h2 : delayElapsed now t0.first cfg.secondAlertMs = true <;>
        simp [checkAlert, hlt, hx, htr, hf1, ha, hs, h2]
  · simp only [Bool.not_eq_true] at ha
    by_cases h1 : delayElapsed now t0.first cfg.alertDelayMs = true
    · by_cases hs : t0.second = true
      · have h2 : (!t0.second && delayElapsed now t0.first cfg.secondAlertMs)
            = false := by simp [hs]
        simp [checkAlert, hlt, hx, htr, ha, h1, hs, h2]
      · simp only [Bool.not_eq_true] at hs
        by_cases h2 : delayElapsed now t0.first cfg.secondAlertMs = true <;>
          simp [checkAlert, hlt, hx, htr, ha, h1, hs, h2]
    · simp only [Bool.not_eq_true] at h1
      simp [checkAlert, hlt, hx, htr, ha, h1]

/-- `checkAlert`, at or above threshold, entity tracked: recovery.  The
history entry is recorded unconditionally; the dispatch request only when
recovery notifications are enabled. -/
theorem checkAlert_above_tracked {cfg : Config} {st : AMState}
    {name : String} {tkb thr : JsNum} {now : ℕ} {t0 : Track}
    (hlt : jsLt tkb thr = false) (hx : st.tracking name = some t0)
    (htr : jsTruthy t0.first = true) :
    checkAlert cfg st name tkb thr now =
      (⟨mapDelete st.tracking name,
        resolveAlertRows st.alerts name (now / 1000),
        recordHistory st.history name "recovery" tkb (JsNum.val 0)
          (now / 1000)⟩,
       if cfg.sendRecoveryNotifications then
         [⟨name, "recovery", tkb, JsNum.val 0⟩]
       else []) := by
  simp [checkAlert, hlt, hx, htr]

/-- `checkAlert`, at or above threshold, looked-up entry falsy (absent,
or a degenerate zero/`null` first-crossing time): a no-op apart from the
(possibly vacuous) tracking delete. -/
theorem checkAlert_above_falsy {cfg : Config} {st : AMState}
    {name : String} {tkb thr : JsNum} {now : ℕ}
    (hlt : jsLt tkb thr = false)
    (hf : jsTruthy ((st.tracking name).getD Track.fresh).first = false) :
    checkAlert cfg st name tkb thr now =
      (⟨mapDelete st.tracking name, st.alerts, st.history⟩, []) := by
  simp [checkAlert, hlt, hf]

/-- `checkAlert`, at or above threshold, entity untracked: a no-op apart
from the (vacuous) tracking delete. -/
theorem checkAlert_above_untracked {cfg : Config} {st : AMState}
    {name : String} {tkb thr : JsNum} {now : ℕ}
    (hlt : jsLt tkb thr = false) (hx : st.tracking name = none) :
    checkAlert cfg st name tkb thr now =
      (⟨mapDelete st.tracking name, st.alerts, st.history⟩, []) := by
  simp [checkAlert, hlt, hx, Track.fresh, jsTruthy]

/-- `checkAlert`, below threshold, with a *present but falsy* tracking
entry (`first` is `null` or `0`, which JavaScript `!track.first` treats
like absence): the entry's `first` is overwritten with `now` and a new
row is inserted, while the `alerted`/`second` flags of the stale entry
survive and gate the escalation checks. -/
theorem checkAlert_below_falsy_some {cfg : Config} {st : AMState}
    {name : String} {tkb thr : JsNum} {now : ℕ} {t0 : Track}
    (hlt : jsLt tkb thr = true) (hx : st.tracking name = some t0)
    (hf : jsTruthy t0.first = false) :
    checkAlert cfg st name tkb thr now =
      if !t0.alerted && delayElapsed now (some now) cfg.alertDelayMs then
        if !t0.second && delayElapsed now (some now) cfg.secondAlertMs then
          (⟨mapSet st.tracking name ⟨some now, true, true⟩,
            setNotifiedSecond (setNotifiedFirst
              (createAlertRecord st.alerts name (now / 1000)) name) name,
            recordHistory (recordHistory st.history name "first" tkb thr
              (now / 1000)) name "second" tkb thr (now / 1000)⟩,
           [⟨name, "first", tkb, thr⟩, ⟨name, "second", tkb, thr⟩])
        else
          (⟨mapSet st.tracking name ⟨some now, true, t0.second⟩,
            setNotifiedFirst (createAlertRecord st.alerts name (now / 1000))
              name,
            recordHistory st.history name "first" tkb thr (now / 1000)⟩,
           [⟨name, "first", tkb, thr⟩])
      else
        if t0.alerted && !t0.second &&
            delayElapsed now (some now) cfg.secondAlertMs then
          (⟨mapSet st.tracking name ⟨some now, t0.alerted, true⟩,
            setNotifiedSecond (createAlertRecord st.alerts name (now / 1000))
              name,
            recordHistory st.history name "second" tkb thr (now / 1000)⟩,
           [⟨name, "second", tkb, thr⟩])
        else
          (⟨mapSet st.tracking name ⟨some now, t0.alerted, t0.second⟩,
            createAlertRecord st.alerts name (now / 1000), st.history⟩,
           []) := by
  by_cases ha : t0.alerted = true
  · have hf1 : (!t0.alerted && delayElapsed now (some now) cfg.alertDelayMs)
        = false := by simp [ha]
    by_cases hs : t0.second = true
    · simp [checkAlert, hlt, hx, hf, hf1, ha, hs]
    · simp only [Bool.not_eq_true] at hs
      by_cases h2 : delayElapsed now (some now) cfg.secondAlertMs = true <;>
        simp [checkAlert, hlt, hx, hf, hf1, ha, hs, h2]
  · simp only [Bool.not_eq_true] at ha
    by_cases h1 : delayElapsed now (some now) cfg.alertDelayMs = true
    · by_cases hs : t0.second = true
      · have h2 : (!t0.second && delayElapsed now (some now) cfg.secondAlertMs)
            = false := by simp [hs]
        simp [checkAlert, hlt, hx, hf, ha, h1, hs, h2]
      · simp only [Bool.not_eq_true] at hs
        by_cases h2 : delayElapsed now (some now) cfg.secondAlertMs = true <;>
          simp [checkAlert, hlt, hx, hf, ha, h1, hs, h2]
    · simp only [Bool.not_eq_true] at h1
      simp [checkAlert, hlt, hx, hf, ha, h1]

theorem mapDelete_mapDelete (m : String → Option Track) (k : String) :
    mapDelete (mapDelete m k) k = mapDelete m k := by
  funext n
  by_cases h : n = k <;> simp [mapDelete, h]

/-- From the invariant: with no open row for `n`, `openFor` is empty. -/
theorem openFor_eq_nil {alerts : List AlertRow} {n : String}
    (h : ∀ a ∈ alerts, a.name = n → a.end_time ≠ none) :
    openFor alerts n = [] := by
  rw [openFor, List.filter_eq_nil_iff]
  intro a ha
  simp only [isOpenFor, decide_eq_true_eq]
  rintro ⟨h1, h2⟩
  exact h a ha h1 h2

/-! ### Invariant preservation for each state-changing operation -/

/-- Creating a fresh tracking entry plus a fresh open row (the
`!track.first` branch) preserves the invariant, provided the entity was
untracked, the persisted second-resolution timestamp is positive, and the
in-memory millisecond timestamp is nonzero. -/
theorem inv_create {tracking : String → Option Track}
    {alerts : List AlertRow} (hInv : Inv tracking alerts) {name : String}
    (hx : tracking name = none) {s v : ℕ} (hs : 1 ≤ s) (hv : v ≠ 0) :
    Inv (mapSet tracking name ⟨some v, false, false⟩)
      (createAlertRecord alerts name s) := by
  have hnoopen := no_open_of_untracked hInv hx
  constructor
  · intro n
    rw [openFor_create]
    by_cases h : n = name
    · subst h
      rw [openFor_eq_nil hnoopen]
      simp
    · simp [h, hInv.openUnique n]
  · intro b hb hbo
    rcases mem_createAlertRecord hb with hmem | rfl
    · by_cases h : b.name = name
      · exact absurd hbo (hnoopen b hmem h)
      · rcases hInv.openTracked b hmem hbo with ⟨t, ht⟩
        exact ⟨t, (mapSet_other tracking _ h).trans ht⟩
    · exact ⟨_, mapSet_self tracking name _⟩
  · intro b hb
    rcases mem_createAlertRecord hb with hmem | rfl
    · exact hInv.startPos b hmem
    · exact hs
  · intro b hb hbo hns
    rcases mem_createAlertRecord hb with hmem | rfl
    · exact hInv.flagsOrdered b hmem hbo hns
    · cases hns
  · intro n t ht
    by_cases h : n = name
    · subst h
      rw [mapSet_self] at ht
      cases ht
      simpa [jsTruthy] using hv
    · rw [mapSet_other tracking _ h] at ht
      exact hInv.trackTruthy n t ht
  · intro n t ht hsec
    by_cases h : n = name
    · subst h
      rw [mapSet_self] at ht
      cases ht
      cases hsec
    · rw [mapSet_other tracking _ h] at ht
      exact hInv.trackOrdered n t ht hsec
  · intro n t ht halert b hb hbn hbo
    by_cases h : n = name
    · subst h
      rw [mapSet_self] at ht
      cases ht
      cases halert
    · rw [mapSet_other tracking _ h] at ht
      rcases mem_createAlertRecord hb with hmem | rfl
      · exact hInv.alertedPersisted n t ht halert b hmem hbn hbo
      · exact absurd hbn.symm h

/-- Marking the tracked entity `alerted` while setting `notified_first`
on its open rows (the body of `sendFirstAlert` plus the flag update in
`checkAlert`) preserves the invariant. -/
theorem inv_setFirst {tracking : String → Option Track}
    {alerts : List AlertRow} (hInv : Inv tracking alerts) {name : String}
    {t : Track} (hx : tracking name = some t) :
    Inv (mapSet tracking name { t with alerted := true })
      (setNotifiedFirst alerts name) := by
  constructor
  · intro n
    rw [openFor_setNotifiedFirst_length]
    exact hInv.openUnique n
  · intro b hb hbo
    rcases mem_setNotifiedFirst hb with ⟨a, ha, hbn, hbe, -, -, -⟩
    by_cases h : b.name = name
    · exact ⟨{ t with alerted := true }, by
        rw [h]; exact mapSet_self tracking name _⟩
    · rcases hInv.openTracked a ha (hbe ▸ hbo) with ⟨u, hu⟩
      exact ⟨u, (mapSet_other tracking _ h).trans (hbn ▸ hu)⟩
  · intro b hb
    rcases mem_setNotifiedFirst hb with ⟨a, ha, -, -, hbs, -, -⟩
    exact hbs ▸ hInv.startPos a ha
  · intro b hb hbo hns
    rcases mem_setNotifiedFirst hb with ⟨a, ha, -, hbe, -, hbns, hnf⟩
    rcases hnf with hnf | ⟨hnf, -⟩
    · exact hnf ▸ hInv.flagsOrdered a ha (hbe ▸ hbo) (hbns ▸ hns)
    · exact hnf
  · intro n u hu
    by_cases h : n = name
    · subst h
      rw [mapSet_self] at hu
      cases hu
      exact hInv.trackTruthy _ t hx
    · rw [mapSet_other tracking _ h] at hu
      exact hInv.trackTruthy n u hu
  · intro n u hu hsec
    by_cases h : n = name
    · subst h
      rw [mapSet_self] at hu
      cases hu
      rfl
    · rw [mapSet_other tracking _ h] at hu
      exact hInv.trackOrdered n u hu hsec
  · intro n u hu halert b hb hbn hbo
    by_cases h : n = name
    · subst h
      exact setNotifiedFirst_open_self hb hbn hbo
    · rw [mapSet_other tracking _ h] at hu
      rcases mem_setNotifiedFirst hb with ⟨a, ha, hbn', hbe, -, -, hnf⟩
      rcases hnf with hnf | ⟨hnf, -⟩
      · exact hnf ▸
          hInv.alertedPersisted n u hu halert a ha (hbn' ▸ hbn) (hbe ▸ hbo)
      · exact hnf

/-- Marking the tracked, already-`alerted` entity `second` while setting
`notified_second` on its open rows (the body of `sendSecondAlert` plus
the flag update in `checkAlert`) preserves the invariant. -/
theorem inv_setSecond {tracking : String → Option Track}
    {alerts : List AlertRow} (hInv : Inv tracking alerts) {name : String}
    {t : Track} (hx : tracking name = some t) (ha : t.alerted = true) :
    Inv (mapSet tracking name { t with second := true })
      (setNotifiedSecond alerts name) := by
  constructor
  · intro n
    rw [openFor_setNotifiedSecond_length]
    exact hInv.openUnique n
  · intro b hb hbo
    rcases mem_setNotifiedSecond hb with ⟨a, ha', hbn, hbe, -, -, -⟩
    by_cases h : b.name = name
    · exact ⟨{ t with second := true }, by
        rw [h]; exact mapSet_self tracking name _⟩
    · rcases hInv.openTracked a ha' (hbe ▸ hbo) with ⟨u, hu⟩
      exact ⟨u, (mapSet_other tracking _ h).trans (hbn ▸ hu)⟩
  · intro b hb
    rcases mem_setNotifiedSecond hb with ⟨a, ha', -, -, hbs, -, -⟩
    exact hbs ▸ hInv.startPos a ha'
  · intro b hb hbo hns
    rcases mem_setNotifiedSecond hb with ⟨a, ha', -, hbe, -, hbnf, hsn⟩
    rcases hsn with hsn | ⟨-, han, hao⟩
    · exact hbnf ▸ hInv.flagsOrdered a ha' (hbe ▸ hbo) (hsn ▸ hns)
    · exact hbnf ▸ hInv.alertedPersisted name t hx ha a ha' han hao
  · intro n u hu
    by_cases h : n = name
    · subst h
      rw [mapSet_self] at hu
      cases hu
      exact hInv.trackTruthy _ t hx
    · rw [mapSet_other tracking _ h] at hu
      exact hInv.trackTruthy n u hu
  · intro n u hu hsec
    by_cases h : n = name
    · subst h
      rw [mapSet_self] at hu
      cases hu
      exact ha
    · rw [mapSet_other tracking _ h] at hu
      exact hInv.trackOrdered n u hu hsec
  · intro n u hu halert b hb hbn hbo
    rcases mem_setNotifiedSecond hb with ⟨a, ha', hbn', hbe, -, hbnf, -⟩
    by_cases h : n = name
    · subst h
      exact hbnf ▸
        hInv.alertedPersisted _ t hx ha a ha' (hbn' ▸ hbn) (hbe ▸ hbo)
    · rw [mapSet_other tracking _ h] at hu
      exact hbnf ▸
        hInv.alertedPersisted n u hu halert a ha' (hbn' ▸ hbn) (hbe ▸ hbo)

/-- Recovery — closing every open row of the entity and deleting its
tracking entry — preserves the invariant from any state. -/
theorem inv_resolve {tracking : String → Option Track}
    {alerts : List AlertRow} (hInv : Inv tracking alerts) (name : String)
    (s : ℕ) :
    Inv (mapDelete tracking name) (resolveAlertRows alerts name s) := by
  constructor
  · intro n
    by_cases h : n = name
    · subst h
      rw [openFor_resolve_self]
      simp
    · rw [openFor_resolve_other _ _ h]
      exact hInv.openUnique n
  · intro b hb hbo
    rcases resolve_open_mem hb hbo with ⟨hmem, hne⟩
    rcases hInv.openTracked b hmem hbo with ⟨u, hu⟩
    exact ⟨u, (mapDelete_other tracking hne).trans hu⟩
  · intro b hb
    rcases mem_resolveAlertRows hb with ⟨a, ha, -, hbs, -, -, -⟩
    exact hbs ▸ hInv.startPos a ha
  · intro b hb hbo hns
    rcases resolve_open_mem hb hbo with ⟨hmem, -⟩
    exact hInv.flagsOrdered b hmem hbo hns
  · intro n u hu
    by_cases h : n = name
    · subst h
      rw [mapDelete_self] at hu
      cases hu
    · rw [mapDelete_other tracking h] at hu
      exact hInv.trackTruthy n u hu
  · intro n u hu hsec
    by_cases h : n = name
    · subst h
      rw [mapDelete_self] at hu
      cases hu
    · rw [mapDelete_other tracking h] at hu
      exact hInv.trackOrdered n u hu hsec
  · intro n u hu halert b hb hbn hbo
    by_cases h : n = name
    · subst h
      rw [mapDelete_self] at hu
      cases hu
    · rw [mapDelete_other tracking h] at hu
      rcases resolve_open_mem hb hbo with ⟨hmem, -⟩
      exact hInv.alertedPersisted n u hu halert b hmem hbn hbo

/-- Deleting the tracking entry of an entity with no open row (the
falsy-`track.first` recovery branch) preserves the invariant. -/
theorem inv_delete_noopen {tracking : String → Option Track}
    {alerts : List AlertRow} (hInv : Inv tracking alerts) {name : String}
    (hnoopen : ∀ a ∈ alerts, a.name = name → a.end_time ≠ none) :
    Inv (mapDelete tracking name) alerts := by
  constructor
  · exact hInv.openUnique
  · intro b hb hbo
    have hne : b.name ≠ name := fun h => hnoopen b hb h hbo
    rcases hInv.openTracked b hb hbo with ⟨u, hu⟩
    exact ⟨u, (mapDelete_other tracking hne).trans hu⟩
  · exact hInv.startPos
  · exact hInv.flagsOrdered
  · intro n u hu
    by_cases h : n = name
    · subst h
      rw [mapDelete_self] at hu
      cases hu
    · rw [mapDelete_other tracking h] at hu
      exact hInv.trackTruthy n u hu
  · intro n u hu hsec
    by_cases h : n = name
    · subst h
      rw [mapDelete_self] at hu
      cases hu
    · rw [mapDelete_other tracking h] at hu
      exact hInv.trackOrdered n u hu hsec
  · intro n u hu halert b hb hbn hbo
    by_cases h : n = name
    · subst h
      rw [mapDelete_self] at hu
      cases hu
    · rw [mapDelete_other tracking h] at hu
      exact hInv.alertedPersisted n u hu halert b hb hbn hbo

/-! ### Rebuilding the tracking map on boot -/

/-- Folding `mapSet` over rows makes the lookup return the *last* row
with the queried name — later `forEach` iterations overwrite earlier
ones, exactly as `Map.set` does. -/
theorem foldl_mapSet_lookup (rows : List AlertRow)
    (m : String → Option Track) (n : String) :
    (rows.foldl (fun acc a => mapSet acc a.name (restoreTrack a)) m) n =
      match (rows.filter fun a => decide (a.name = n)).getLast? with
      | some a => some (restoreTrack a)
      | none => m n := by
  induction rows generalizing m with
  | nil => rfl
  | cons a l ih =>
    rw [List.foldl_cons, ih]
    by_cases h : a.name = n
    · rw [List.filter_cons_of_pos (by simp [h])]
      cases hl : l.filter (fun b => decide (b.name = n)) with
      | nil =>
        simp only [hl, List.getLast?_nil, List.getLast?_singleton]
        rw [← h, mapSet_self]
      | cons b tl =>
        simp only [hl, List.getLast?_cons_cons]
        cases hbl : (b :: tl).getLast? with
        | none => simp at hbl
        | some c => rfl
    · rw [List.filter_cons_of_neg (by simp [h])]
      cases hl : (l.filter fun b => decide (b.name = n)).getLast? with
      | none =>
        exact mapSet_other m _ fun hn => h hn.symm
      | some c => rfl

/-- `restoreState` lookup: the (last) open row of the entity, turned into
a tracking entry; `none` when the entity has no open row. -/
theorem restoreState_lookup (alerts : List AlertRow) (n : String) :
    restoreState alerts n =
      match (openFor alerts n).getLast? with
      | some a => some (restoreTrack a)
      | none => none := by
  unfold restoreState
  rw [foldl_mapSet_lookup]
  have hf : (alerts.filter fun a => a.end_time.isNone).filter
      (fun a => decide (a.name = n)) = openFor alerts n := by
    rw [List.filter_filter]
    apply List.filter_congr
    intro a _
    cases hae : a.end_time <;> simp [isOpenFor, hae]
  rw [hf]

theorem eq_of_mem_of_length_le_one {α : Type} {l : List α} {a b : α}
    (h : l.length ≤ 1) (ha : a ∈ l) (hb : b ∈ l) : a = b := by
  match l with
  | [] => cases ha
  | [x] =>
    rw [List.mem_singleton] at ha hb
    rw [ha, hb]
  | x :: y :: t => simp at h

/-- A member of a list whose length is at most one is its last
element. -/
theorem getLast_eq_of_mem_of_length_le_one {α : Type} {l : List α}
    {a : α} (h : l.length ≤ 1) (ha : a ∈ l) : l.getLast? = some a := by
  match l with
  | [] => cases ha
  | [x] =>
    rw [List.mem_singleton] at ha
    rw [ha]
    rfl
  | x :: y :: t => simp at h

/-- Rebooting — rebuilding the tracking map from the open rows — restores
the invariant. -/
theorem inv_restore {tracking : String → Option Track}
    {alerts : List AlertRow} (hInv : Inv tracking alerts) :
    Inv (restoreState alerts) alerts := by
  have hmem : ∀ {n : String} {t : Track}, restoreState alerts n = some t →
      ∃ a ∈ alerts, a.name = n ∧ a.end_time = none ∧ t = restoreTrack a := by
    intro n t ht
    rw [restoreState_lookup] at ht
    cases hl : (openFor alerts n).getLast? with
    | none => rw [hl] at ht; cases ht
    | some a =>
      rw [hl] at ht
      cases ht
      have hin : a ∈ (openFor alerts n).getLast? := by
        rw [hl]; rfl
      rcases List.mem_getLast?_eq_getLast hin with ⟨hne, heq⟩
      have hamem : a ∈ openFor alerts n := heq ▸ List.getLast_mem hne
      rw [openFor, List.mem_filter] at hamem
      rcases hamem with ⟨haal, hopen⟩
      rw [isOpenFor, decide_eq_true_eq] at hopen
      exact ⟨a, haal, hopen.1, hopen.2, rfl⟩
  constructor
  · exact hInv.openUnique
  · intro a ha hao
    have hamem : a ∈ openFor alerts a.name := by
      rw [openFor, List.mem_filter]
      exact ⟨ha, by rw [isOpenFor, decide_eq_true_eq]; exact ⟨rfl, hao⟩⟩
    refine ⟨restoreTrack a, ?_⟩
    rw [restoreState_lookup,
      getLast_eq_of_mem_of_length_le_one (hInv.openUnique a.name) hamem]
  · exact hInv.startPos
  · exact hInv.flagsOrdered
  · intro n t ht
    rcases hmem ht with ⟨a, ha, -, -, rfl⟩
    have := hInv.startPos a ha
    simp only [restoreTrack, jsTruthy, decide_eq_true_eq]
    omega
  · intro n t ht hsec
    rcases hmem ht with ⟨a, ha, -, hao, rfl⟩
    simp only [restoreTrack, decide_eq_true_eq] at hsec ⊢
    exact hInv.flagsOrdered a ha hao hsec
  · intro n t ht halert b hb hbn hbo
    rcases hmem ht with ⟨a, ha, han, hao, rfl⟩
    simp only [restoreTrack, decide_eq_true_eq] at halert
    have hamem : a ∈ openFor alerts n := by
      rw [openFor, List.mem_filter]
      exact ⟨ha, by rw [isOpenFor, decide_eq_true_eq]; exact ⟨han, hao⟩⟩
    have hbmem : b ∈ openFor alerts n := by
      rw [openFor, List.mem_filter]
      exact ⟨hb, by rw [isOpenFor, decide_eq_true_eq]; exact ⟨hbn, hbo⟩⟩
    have hab : b = a :=
      eq_of_mem_of_length_le_one (hInv.openUnique n) hbmem hamem
    rw [hab]
    exact halert

/-- One `checkAlert` evaluation preserves the invariant (for realistic
clock readings). -/
theorem inv_checkAlert (cfg : Config) {st : AMState} {name : String}
    {tkb thr : JsNum} {now : ℕ}
    (hInv : Inv st.tracking st.alerts) (hnow : 1000 ≤ now) :
    Inv (checkAlert cfg st name tkb thr now).1.tracking
      (checkAlert cfg st name tkb thr now).1.alerts := by
  have hv : now ≠ 0 := by omega
  have hs : 1 ≤ now / 1000 := (Nat.le_div_iff_mul_le (by norm_num)).mpr
    (by omega)
  by_cases hlt : jsLt tkb thr = true
  · cases hx : st.tracking name with
    | none =>
      rw [checkAlert_below_untracked hlt hx]
      have I1 := inv_create hInv hx hs hv
      by_cases h1 : delayElapsed now (some now) cfg.alertDelayMs = true
      · have I2 := inv_setFirst I1 (mapSet_self st.tracking name _)
        rw [mapSet_mapSet] at I2
        by_cases h2 : delayElapsed now (some now) cfg.secondAlertMs = true
        · have I3 := inv_setSecond I2 (mapSet_self st.tracking name _) rfl
          rw [mapSet_mapSet] at I3
          simpa [h1, h2] using I3
        · simpa [h1, h2] using I2
      · simpa [h1] using I1
    | some t0 =>
      have htr := hInv.trackTruthy name t0 hx
      rw [checkAlert_below_tracked hlt hx htr]
      by_cases hf1 : (!t0.alerted &&
          delayElapsed now t0.first cfg.alertDelayMs) = true
      · have I2 := inv_setFirst hInv hx
        by_cases hf2 : (!t0.second &&
            delayElapsed now t0.first cfg.secondAlertMs) = true
        · have I3 := inv_setSecond I2 (mapSet_self st.tracking name _) rfl
          rw [mapSet_mapSet] at I3
          simpa [hf1, hf2] using I3
        · simpa [hf1, hf2] using I2
      · by_cases hf2 : (t0.alerted && !t0.second &&
            delayElapsed now t0.first cfg.secondAlertMs) = true
        · have ha : t0.alerted = true := by
            rcases Bool.and_eq_true_iff.mp hf2 with ⟨h', -⟩
            exact (Bool.and_eq_true_iff.mp h').1
          have I3 := inv_setSecond hInv hx ha
          simpa [hf1, hf2] using I3
        · have heq : mapSet st.tracking name t0 = st.tracking :=
            mapSet_same hx
          simp only [hf1, hf2, Bool.false_eq_true, if_false]
          rw [heq]
          exact hInv
  · simp only [Bool.not_eq_true] at hlt
    cases hx : st.tracking name with
    | none =>
      rw [checkAlert_above_untracked hlt hx]
      exact inv_delete_noopen hInv (no_open_of_untracked hInv hx)
    | some t0 =>
      have htr := hInv.trackTruthy name t0 hx
      rw [checkAlert_above_tracked hlt hx htr]
      exact inv_resolve hInv name (now / 1000)

/-- The invariant holds at every reachable state. -/
theorem reachable_inv {cfg : Config} {st : AMState}
    (h : Reachable cfg st) : Inv st.tracking st.alerts := by
  induction h with
  | init =>
    constructor <;> intros <;> simp_all [initState, openFor]
  | step st name tkb thr now _ hnow ih => exact inv_checkAlert cfg ih hnow
  | boot st _ ih => exact inv_restore ih

theorem jsAdd_nan_left (x : JsNum) : jsAdd JsNum.nan x = JsNum.nan := by
  cases x <;> rfl

theorem jsAdd_nan_right (x : JsNum) : jsAdd x JsNum.nan = JsNum.nan := by
  cases x <;> rfl

theorem jsLt_nan_left (x : JsNum) : jsLt JsNum.nan x = false := by
  cases x <;> rfl

/-- The history row `recordAlertHistory` writes for one dispatch request
at second-resolution timestamp `s`: same entity, stage tag, traffic and
threshold values. -/
def notifToHistory (nt : Notification) (s : ℕ) : HistoryRow :=
  ⟨nt.name, nt.type, nt.trafficKb, nt.threshold, s⟩

/-- The state after one `checkAlert` evaluation (discarding the dispatch
requests). -/
def evalStep (cfg : Config) (st : AMState) (name : String)
    (tkb thr : JsNum) (now : ℕ) : AMState :=
  (checkAlert cfg st name tkb thr now).1

/-! ## Claim theorems -/

/-- C1: at every state reachable under the poll-cycle step relation
(empty start, `checkAlert` steps at realistic clock readings, restarts),
every entity has at most one open alert row (`end_time IS NULL`); since
reachability is closed under `checkAlert` steps, `checkAlert` never
inserts a second open record for an entity that already has one — the
lookup of the entity's tracking entry (the in-memory cache of its open
record) guards the insert. -/
theorem c1_open_record_unique {cfg : Config} {st : AMState}
    (h : Reachable cfg st) (n : String) :
    (openFor st.alerts n).length ≤ 1 :=
  (reachable_inv h).openUnique n

/-- C1 witness: a concrete two-step run reaching a state with an open
record for `"Q1"`. -/
theorem c1_open_record_unique_witness :
    (openFor (checkAlert defaultConfig initState "Q1" (JsNum.val 0)
      (JsNum.val 10) 100000).1.alerts "Q1").length ≤ 1 :=
  c1_open_record_unique
    (Reachable.step initState "Q1" (JsNum.val 0) (JsNum.val 10) 100000
      Reachable.init (by norm_num)) "Q1"

/-- C9: at every reachable state — including states rebuilt on boot by
`restoreState` and states produced by any sequence of `checkAlert`
calls — no tracking entry has `second = true` with `alerted = false`. -/
theorem c9_second_implies_first {cfg : Config} {st : AMState}
    (h : Reachable cfg st) (n : String) (t : Track)
    (ht : st.tracking n = some t) (hs : t.second = true) :
    t.alerted = true :=
  (reachable_inv h).trackOrdered n t ht hs

/-- C9 witness: a concrete run reaching a state whose `"Q1"` entry has
`second = true` (both alerts fired), on which the theorem yields
`alerted = true`. -/
theorem c9_second_implies_first_witness :
    (⟨some 100000, true, true⟩ : Track).alerted = true :=
  c9_second_implies_first
    (Reachable.step _ "Q1" (JsNum.val 0) (JsNum.val 10) 10900000
      (Reachable.step initState "Q1" (JsNum.val 0) (JsNum.val 10) 100000
        (@Reachable.init defaultConfig) (by norm_num)) (by norm_num))
    "Q1" ⟨some 100000, true, true⟩ (by decide) rfl

/-- C5: rebuilding the tracking map from persisted rows: if `[a]` are
exactly the open rows of entity `n`, the rebuilt entry for `n` is
`restoreTrack a`, whose `alerted`/`second` booleans hold exactly when the
stored `notified_first`/`notified_second` flags are `1`, and whose
first-crossing time is the stored `start_time` (seconds) expressed on the
in-memory millisecond axis, `start_time * 1000`. -/
theorem c5_restore_reconstruction {alerts : List AlertRow} {n : String}
    {a : AlertRow} (h : openFor alerts n = [a]) :
    restoreState alerts n = some (restoreTrack a) ∧
    (restoreTrack a).first = some (a.start_time * 1000) ∧
    ((restoreTrack a).alerted = true ↔ a.notified_first = 1) ∧
    ((restoreTrack a).second = true ↔ a.notified_second = 1) := by
  refine ⟨?_, rfl, by simp [restoreTrack], by simp [restoreTrack]⟩
  rw [restoreState_lookup, h]
  rfl

/-- C5 witness: one open row with `notified_first = 1`,
`notified_second = 0`, `start_time = 5`. -/
theorem c5_restore_reconstruction_witness :
    restoreState [⟨"Q1", 5, 1, 0, none⟩] "Q1" =
      some (restoreTrack ⟨"Q1", 5, 1, 0, none⟩) ∧
    (restoreTrack (⟨"Q1", 5, 1, 0, none⟩ : AlertRow)).first = some 5000 ∧
    ((restoreTrack (⟨"Q1", 5, 1, 0, none⟩ : AlertRow)).alerted = true ↔
      (1 : ℕ) = 1) ∧
    ((restoreTrack (⟨"Q1", 5, 1, 0, none⟩ : AlertRow)).second = true ↔
      (0 : ℕ) = 1) :=
  c5_restore_reconstruction (by decide)

/-- C3 counterexample: the claim says a malformed rate string such as
`"abc"` parses as `rx = 0, tx = 0`; in fact `parseInt("abc")` is `NaN`
(the `|| 0` only replaces *falsy* strings, not failed parses), so the
sampler computes `rx = NaN`. -/
theorem c3_counterexample :
    ¬ parseRate (some "abc") = (JsNum.val 0, JsNum.val 0) := by decide

/-- C3 (amended): a *missing* rate string parses as `rx = 0, tx = 0`
without raising and those zeroes are what the sample row stores and the
evaluator receives; a *malformed* component such as `"abc"` instead
parses to `NaN` (`rx = NaN, tx = 0`), still without raising, and the
`NaN`-valued sample is what gets stored and fed to the evaluator
(`totalKb = NaN`). -/
theorem c3_malformed_rate_parsing :
    (∀ name now, sampleOf name none now =
      ⟨name, JsNum.val 0, JsNum.val 0, now / 1000⟩) ∧
    totalKbOf none = JsNum.val 0 ∧
    (∀ name now, sampleOf name (some "abc") now =
      ⟨name, JsNum.nan, JsNum.val 0, now / 1000⟩) ∧
    totalKbOf (some "abc") = JsNum.nan := by
  refine ⟨?_, ?_, ?_, ?_⟩
  · intro name now
    have h : parseRate none = (JsNum.val 0, JsNum.val 0) := by decide
    simp [sampleOf, h]
  · have h : parseRate none = (JsNum.val 0, JsNum.val 0) := by decide
    rw [totalKbOf, h]
    show jsDiv1024 (jsAdd (JsNum.val 0) (JsNum.val 0)) = JsNum.val 0
    norm_num [jsAdd, jsDiv1024]
  · intro name now
    have h : parseRate (some "abc") = (JsNum.nan, JsNum.val 0) := by decide
    simp [sampleOf, h]
  · have h : parseRate (some "abc") = (JsNum.nan, JsNum.val 0) := by decide
    rw [totalKbOf, h]
    rfl

/-- C2 counterexample: with the repository's default delays, an entity
that crossed below threshold at `t = 100000` ms and is evaluated next at
`t = 10900000` ms (past the 3-hour second-alert delay) fires *both* the
first and the second alert in that single `checkAlert` call — the second
check reads the `alerted` flag just set by the first check of the same
cycle, so two escalation transitions fire in one poll cycle and the
entity reaches SecondNotified without a prior FirstNotified cycle. -/
theorem c2_counterexample :
    (checkAlert defaultConfig
      (checkAlert defaultConfig initState "Q1" (JsNum.val 0) (JsNum.val 10)
        100000).1
      "Q1" (JsNum.val 0) (JsNum.val 10) 10900000).2 =
    [⟨"Q1", "first", JsNum.val 0, JsNum.val 10⟩,
     ⟨"Q1", "second", JsNum.val 0, JsNum.val 10⟩] := by decide

/-- C2 (amended): within one `checkAlert` call the dispatched stages are
one of `[]`, `[first]`, `[second]`, `[first, second]`, `[recovery]` — so
recovery is mutually exclusive with the escalation stages, but first and
second *can* both fire in the same cycle when the second-alert delay has
already elapsed (the second check sees `first_notified` set earlier in
the same call); and a cycle that fires *only* the second alert starts
from an entry already marked `alerted`, so SecondNotified is reached only
through FirstNotified — in a prior cycle or in this very cycle. -/
theorem c2_stage_exclusivity (cfg : Config) (st : AMState) (name : String)
    (tkb thr : JsNum) (now : ℕ) :
    ((checkAlert cfg st name tkb thr now).2 = [] ∨
     (checkAlert cfg st name tkb thr now).2 = [⟨name, "first", tkb, thr⟩] ∨
     (checkAlert cfg st name tkb thr now).2 = [⟨name, "second", tkb, thr⟩] ∨
     (checkAlert cfg st name tkb thr now).2 =
       [⟨name, "first", tkb, thr⟩, ⟨name, "second", tkb, thr⟩] ∨
     (checkAlert cfg st name tkb thr now).2 =
       [⟨name, "recovery", tkb, JsNum.val 0⟩]) ∧
    ((checkAlert cfg st name tkb thr now).2 = [⟨name, "second", tkb, thr⟩] →
      ((st.tracking name).getD Track.fresh).alerted = true) := by
  by_cases hlt : jsLt tkb thr = true
  · cases hx : st.tracking name with
    | none =>
      rw [checkAlert_below_untracked hlt hx]
      by_cases h1 : delayElapsed now (some now) cfg.alertDelayMs = true
      · by_cases h2 : delayElapsed now (some now) cfg.secondAlertMs = true <;>
          simp [h1, h2]
      · simp [h1]
    | some t0 =>
      by_cases htr : jsTruthy t0.first = true
      · rw [checkAlert_below_tracked hlt hx htr]
        by_cases hf1 : (!t0.alerted &&
            delayElapsed now t0.first cfg.alertDelayMs) = true
        · by_cases hf2 : (!t0.second &&
              delayElapsed now t0.first cfg.secondAlertMs) = true <;>
            simp [hf1, hf2]
        · by_cases hf2 : (t0.alerted && !t0.second &&
              delayElapsed now t0.first cfg.secondAlertMs) = true
          · rcases Bool.and_eq_true_iff.mp hf2 with ⟨h', hd2⟩
            rcases Bool.and_eq_true_iff.mp h' with ⟨ha, hs⟩
            rw [Bool.not_eq_true'] at hs
            simp [ha, hs, hd2, hx]
          · simp [hf1, hf2]
      · simp only [Bool.not_eq_true] at htr
        rw [checkAlert_below_falsy_some hlt hx htr]
        by_cases hf1 : (!t0.alerted &&
            delayElapsed now (some now) cfg.alertDelayMs) = true
        · by_cases hf2 : (!t0.second &&
              delayElapsed now (some now) cfg.secondAlertMs) = true <;>
            simp [hf1, hf2]
        · by_cases hf2 : (t0.alerted && !t0.second &&
              delayElapsed now (some now) cfg.secondAlertMs) = true
          · rcases Bool.and_eq_true_iff.mp hf2 with ⟨h', hd2⟩
            rcases Bool.and_eq_true_iff.mp h' with ⟨ha, hs⟩
            rw [Bool.not_eq_true'] at hs
            simp [ha, hs, hd2, hx]
          · simp [hf1, hf2]
  · simp only [Bool.not_eq_true] at hlt
    cases hx : st.tracking name with
    | none =>
      rw [checkAlert_above_untracked hlt hx]
      simp
    | some t0 =>
      by_cases htr : jsTruthy t0.first = true
      · rw [checkAlert_above_tracked hlt hx htr]
        by_cases hr : cfg.sendRecoveryNotifications = true <;> simp [hr]
      · simp only [Bool.not_eq_true] at htr
        rw [checkAlert_above_falsy hlt (by rw [hx]; exact htr)]
        simp

/-- C2 (amended) witness: the concrete double-fire run instantiates the
disjunction at its fourth disjunct. -/
theorem c2_stage_exclusivity_witness :
    ((checkAlert defaultConfig
        (checkAlert defaultConfig initState "Q1" (JsNum.val 0)
          (JsNum.val 10) 100000).1
        "Q1" (JsNum.val 0) (JsNum.val 10) 10900000).2 = [] ∨
     (checkAlert defaultConfig
        (checkAlert defaultConfig initState "Q1" (JsNum.val 0)
          (JsNum.val 10) 100000).1
        "Q1" (JsNum.val 0) (JsNum.val 10) 10900000).2 =
       [⟨"Q1", "first", JsNum.val 0, JsNum.val 10⟩] ∨
     (checkAlert defaultConfig
        (checkAlert defaultConfig initState "Q1" (JsNum.val 0)
          (JsNum.val 10) 100000).1
        "Q1" (JsNum.val 0) (JsNum.val 10) 10900000).2 =
       [⟨"Q1", "second", JsNum.val 0, JsNum.val 10⟩] ∨
     (checkAlert defaultConfig
        (checkAlert defaultConfig initState "Q1" (JsNum.val 0)
          (JsNum.val 10) 100000).1
        "Q1" (JsNum.val 0) (JsNum.val 10) 10900000).2 =
       [⟨"Q1", "first", JsNum.val 0, JsNum.val 10⟩,
        ⟨"Q1", "second", JsNum.val 0, JsNum.val 10⟩] ∨
     (checkAlert defaultConfig
        (checkAlert defaultConfig initState "Q1" (JsNum.val 0)
          (JsNum.val 10) 100000).1
        "Q1" (JsNum.val 0) (JsNum.val 10) 10900000).2 =
       [⟨"Q1", "recovery", JsNum.val 0, JsNum.val 0⟩]) ∧
    ((checkAlert defaultConfig
        (checkAlert defaultConfig initState "Q1" (JsNum.val 0)
          (JsNum.val 10) 100000).1
        "Q1" (JsNum.val 0) (JsNum.val 10) 10900000).2 =
       [⟨"Q1", "second", JsNum.val 0, JsNum.val 10⟩] →
      (((checkAlert defaultConfig initState "Q1" (JsNum.val 0)
          (JsNum.val 10) 100000).1.tracking "Q1").getD
        Track.fresh).alerted = true) :=
  c2_stage_exclusivity defaultConfig
    ((checkAlert defaultConfig initState "Q1" (JsNum.val 0) (JsNum.val 10)
      100000).1) "Q1" (JsNum.val 0) (JsNum.val 10) 10900000

/-- C4 counterexample: with the repository's default configuration
(`sendRecoveryNotifications: false`), a recovery cycle dispatches *no*
notification yet still appends an `alert_history` row — so history rows
are not in one-to-one correspondence with dispatched notifications. -/
theorem c4_counterexample :
    (checkAlert defaultConfig
      (checkAlert defaultConfig initState "Q1" (JsNum.val 0) (JsNum.val 10)
        100000).1
      "Q1" (JsNum.val 50) (JsNum.val 10) 200000).2 = [] ∧
    (checkAlert defaultConfig
      (checkAlert defaultConfig initState "Q1" (JsNum.val 0) (JsNum.val 10)
        100000).1
      "Q1" (JsNum.val 50) (JsNum.val 10) 200000).1.history =
      [⟨"Q1", "recovery", JsNum.val 50, JsNum.val 0, 200⟩] := by decide

/-- C4 (amended): one `alert_history` row is appended per *stage
transition* (first, second, recovery), carrying that stage's entity,
stage tag, traffic value, threshold value (`0` for recovery) and
timestamp.  When recovery notifications are enabled, stage transitions
and dispatch requests coincide, so the appended history rows are exactly
the dispatched notifications converted by `notifToHistory`; with them
disabled (the repository default), the recovery history row is still
appended although nothing is dispatched — the counterexample above. -/
theorem c4_history_matches_dispatch (cfg : Config) (st : AMState)
    (name : String) (tkb thr : JsNum) (now : ℕ)
    (hrec : cfg.sendRecoveryNotifications = true) :
    (checkAlert cfg st name tkb thr now).1.history =
      st.history ++ ((checkAlert cfg st name tkb thr now).2).map
        (fun nt => notifToHistory nt (now / 1000)) := by
  by_cases hlt : jsLt tkb thr = true
  · cases hx : st.tracking name with
    | none =>
      rw [checkAlert_below_untracked hlt hx]
      by_cases h1 : delayElapsed now (some now) cfg.alertDelayMs = true
      · by_cases h2 : delayElapsed now (some now) cfg.secondAlertMs = true <;>
          simp [h1, h2, recordHistory, notifToHistory]
      · simp [h1, recordHistory]
    | some t0 =>
      by_cases htr : jsTruthy t0.first = true
      · rw [checkAlert_below_tracked hlt hx htr]
        by_cases hf1 : (!t0.alerted &&
            delayElapsed now t0.first cfg.alertDelayMs) = true
        · by_cases hf2 : (!t0.second &&
              delayElapsed now t0.first cfg.secondAlertMs) = true <;>
            simp [hf1, hf2, recordHistory, notifToHistory]
        · by_cases hf2 : (t0.alerted && !t0.second &&
              delayElapsed now t0.first cfg.secondAlertMs) = true <;>
            simp [hf1, hf2, recordHistory, notifToHistory]
      · simp only [Bool.not_eq_true] at htr
        rw [checkAlert_below_falsy_some hlt hx htr]
        by_cases hf1 : (!t0.alerted &&
            delayElapsed now (some now) cfg.alertDelayMs) = true
        · by_cases hf2 : (!t0.second &&
              delayElapsed now (some now) cfg.secondAlertMs) = true <;>
            simp [hf1, hf2, recordHistory, notifToHistory]
        · by_cases hf2 : (t0.alerted && !t0.second &&
              delayElapsed now (some now) cfg.secondAlertMs) = true <;>
            simp [hf1, hf2, recordHistory, notifToHistory]
  · simp only [Bool.not_eq_true] at hlt
    cases hx : st.tracking name with
    | none =>
      rw [checkAlert_above_untracked hlt hx]
      simp
    | some t0 =>
      by_cases htr : jsTruthy t0.first = true
      · rw [checkAlert_above_tracked hlt hx htr]
        simp [hrec, recordHistory, notifToHistory]
      · simp only [Bool.not_eq_true] at htr
        rw [checkAlert_above_falsy hlt (by rw [hx]; exact htr)]
        simp

/-- C4 (amended) witness: a recovery cycle with recovery notifications
*enabled* appends exactly the dispatched notification's history row. -/
theorem c4_history_matches_dispatch_witness :
    (checkAlert ⟨600000, 10800000, true⟩
      (checkAlert ⟨600000, 10800000, true⟩ initState "Q1" (JsNum.val 0)
        (JsNum.val 10) 100000).1
      "Q1" (JsNum.val 50) (JsNum.val 10) 200000).1.history =
      (checkAlert ⟨600000, 10800000, true⟩ initState "Q1" (JsNum.val 0)
        (JsNum.val 10) 100000).1.history ++
      ((checkAlert ⟨600000, 10800000, true⟩
        (checkAlert ⟨600000, 10800000, true⟩ initState "Q1" (JsNum.val 0)
          (JsNum.val 10) 100000).1
        "Q1" (JsNum.val 50) (JsNum.val 10) 200000).2).map
        (fun nt => notifToHistory nt (200000 / 1000)) :=
  c4_history_matches_dispatch ⟨600000, 10800000, true⟩
    ((checkAlert ⟨600000, 10800000, true⟩ initState "Q1" (JsNum.val 0)
      (JsNum.val 10) 100000).1) "Q1" (JsNum.val 50) (JsNum.val 10) 200000
    rfl

/-- C7: `checkAlert` is idempotent per cycle: re-running it with the same
sample value and the same clock reading leaves the state (tracking map,
alert rows and history) exactly as after the single run, and dispatches
nothing — the flags set by the first run block every re-dispatch. -/
theorem c7_idempotent (cfg : Config) (st : AMState) (name : String)
    (tkb thr : JsNum) (now : ℕ) (hnow : 0 < now) :
    checkAlert cfg (checkAlert cfg st name tkb thr now).1 name tkb thr
      now = ((checkAlert cfg st name tkb thr now).1, []) := by
  have htnow : jsTruthy (some now) = true := by
    simp only [jsTruthy, decide_eq_true_eq]
    omega
  by_cases hlt : jsLt tkb thr = true
  · cases hx : st.tracking name with
    | none =>
      rw [checkAlert_below_untracked hlt hx]
      by_cases h1 : delayElapsed now (some now) cfg.alertDelayMs = true
      · by_cases h2 : delayElapsed now (some now) cfg.secondAlertMs = true
        · simp only [h1, h2, if_true]
          rw [checkAlert_below_tracked hlt
            (mapSet_self st.tracking name ⟨some now, true, true⟩) htnow]
          simp [mapSet_mapSet]
        · simp only [h1, h2, if_true, Bool.false_eq_true, if_false]
          rw [checkAlert_below_tracked hlt
            (mapSet_self st.tracking name ⟨some now, true, false⟩) htnow]
          simp [h2, mapSet_mapSet]
      · simp only [h1, Bool.false_eq_true, if_false]
        rw [checkAlert_below_tracked hlt
          (mapSet_self st.tracking name ⟨some now, false, false⟩) htnow]
        simp [h1, mapSet_mapSet]
    | some t0 =>
      by_cases htr : jsTruthy t0.first = true
      · rw [checkAlert_below_tracked hlt hx htr]
        by_cases hf1 : (!t0.alerted &&
            delayElapsed now t0.first cfg.alertDelayMs) = true
        · by_cases hf2 : (!t0.second &&
              delayElapsed now t0.first cfg.secondAlertMs) = true
          · simp only [hf1, hf2, if_true]
            rw [checkAlert_below_tracked hlt
              (mapSet_self st.tracking name
                { t0 with alerted := true, second := true })
              (show jsTruthy ({ t0 with alerted := true, second := true } :
                Track).first = true from htr)]
            simp [mapSet_mapSet]
          · simp only [hf1, hf2, if_true, Bool.false_eq_true, if_false]
            rw [checkAlert_below_tracked hlt
              (mapSet_self st.tracking name { t0 with alerted := true })
              (show jsTruthy ({ t0 with alerted := true } :
                Track).first = true from htr)]
            simp [hf2, mapSet_mapSet]
        · by_cases hf2 : (t0.alerted && !t0.second &&
              delayElapsed now t0.first cfg.secondAlertMs) = true
          · rcases Bool.and_eq_true_iff.mp hf2 with ⟨h', hd2⟩
            rcases Bool.and_eq_true_iff.mp h' with ⟨ha, hs⟩
            rw [Bool.not_eq_true'] at hs
            simp only [hf1, hf2, Bool.false_eq_true, if_false, if_true]
            rw [checkAlert_below_tracked hlt
              (mapSet_self st.tracking name { t0 with second := true })
              (show jsTruthy ({ t0 with second := true } :
                Track).first = true from htr)]
            simp [ha, mapSet_mapSet]
          · simp only [hf1, hf2, Bool.false_eq_true, if_false]
            rw [checkAlert_below_tracked hlt
              (mapSet_self st.tracking name t0) htr]
            simp [hf1, hf2, mapSet_mapSet]
      · simp only [Bool.not_eq_true] at htr
        rw [checkAlert_below_falsy_some hlt hx htr]
        by_cases hf1 : (!t0.alerted &&
            delayElapsed now (some now) cfg.alertDelayMs) = true
        · have ha : t0.alerted = false := by
            rcases Bool.and_eq_true_iff.mp hf1 with ⟨ha', -⟩
            rwa [Bool.not_eq_true'] at ha'
          by_cases hf2 : (!t0.second &&
              delayElapsed now (some now) cfg.secondAlertMs) = true
          · simp only [hf1, hf2, if_true]
            rw [checkAlert_below_tracked hlt
              (mapSet_self st.tracking name ⟨some now, true, true⟩) htnow]
            simp [mapSet_mapSet]
          · simp only [hf1, hf2, if_true, Bool.false_eq_true, if_false]
            rw [checkAlert_below_tracked hlt
              (mapSet_self st.tracking name ⟨some now, true, t0.second⟩)
              htnow]
            simp [hf2, mapSet_mapSet]
        · by_cases hf2 : (t0.alerted && !t0.second &&
              delayElapsed now (some now) cfg.secondAlertMs) = true
          · rcases Bool.and_eq_true_iff.mp hf2 with ⟨h', hd2⟩
            rcases Bool.and_eq_true_iff.mp h' with ⟨ha, hs⟩
            rw [Bool.not_eq_true'] at hs
            simp only [hf1, hf2, Bool.false_eq_true, if_false, if_true]
            rw [checkAlert_below_tracked hlt
              (mapSet_self st.tracking name ⟨some now, t0.alerted, true⟩)
              htnow]
            simp [ha, mapSet_mapSet]
          · simp only [hf1, hf2, Bool.false_eq_true, if_false]
            rw [checkAlert_below_tracked hlt
              (mapSet_self st.tracking name
                ⟨some now, t0.alerted, t0.second⟩) htnow]
            simp [hf1, hf2, mapSet_mapSet]
  · simp only [Bool.not_eq_true] at hlt
    by_cases htr :
        jsTruthy ((st.tracking name).getD Track.fresh).first = true
    · cases hx : st.tracking name with
      | none =>
        rw [hx] at htr
        simp [Track.fresh, jsTruthy] at htr
      | some t0 =>
        rw [hx] at htr
        simp only [Option.getD_some] at htr
        rw [checkAlert_above_tracked hlt hx htr]
        rw [checkAlert_above_falsy hlt
          (by simp [mapDelete, Track.fresh, jsTruthy])]
        simp [mapDelete_mapDelete]
    · simp only [Bool.not_eq_true] at htr
      rw [checkAlert_above_falsy hlt htr]
      rw [checkAlert_above_falsy hlt
        (by simp [mapDelete, Track.fresh, jsTruthy])]
      simp [mapDelete_mapDelete]

/-- C7 witness: a concrete below-threshold evaluation re-run at the same
clock reading is a no-op that dispatches nothing. -/
theorem c7_idempotent_witness :
    checkAlert defaultConfig
      (checkAlert defaultConfig initState "Q1" (JsNum.val 0) (JsNum.val 10)
        700000).1 "Q1" (JsNum.val 0) (JsNum.val 10) 700000 =
    ((checkAlert defaultConfig initState "Q1" (JsNum.val 0) (JsNum.val 10)
      700000).1, []) :=
  c7_idempotent defaultConfig initState "Q1" (JsNum.val 0) (JsNum.val 10)
    700000 (by norm_num)

/-- C8: channel isolation and flag setting.  The dispatcher
(`sendAlert`) never raises: a channel whose `send` throws is caught
inside the per-channel mapper and reported as `success: false` with its
error detail, while an independently succeeding channel reports
`success: true` — so the email-throws/chat-succeeds event yields exactly
that outcome list.  The evaluator does not consume the outcome list for
its state transition: a due first alert sets the in-memory `alerted` flag
and `notified_first = 1` on the entity's open rows and dispatches the
`first` request, regardless of per-channel outcomes. -/
theorem c8_channel_isolation (emailErr : String) (cfg : Config)
    (st : AMState) (name : String) (tkb thr : JsNum) (now : ℕ)
    (t0 : Track) (hx : st.tracking name = some t0)
    (htr : jsTruthy t0.first = true) (ha : t0.alerted = false)
    (hlt : jsLt tkb thr = true)
    (hd : delayElapsed now t0.first cfg.alertDelayMs = true) :
    sendAlertChannels
      [⟨"email", true, some emailErr⟩, ⟨"chat", true, none⟩] =
      [⟨"email", false, some emailErr⟩, ⟨"chat", true, none⟩] ∧
    ⟨name, "first", tkb, thr⟩ ∈ (checkAlert cfg st name tkb thr now).2 ∧
    (∃ t', (checkAlert cfg st name tkb thr now).1.tracking name = some t' ∧
      t'.alerted = true) ∧
    ∀ a ∈ (checkAlert cfg st name tkb thr now).1.alerts,
      a.name = name → a.end_time = none → a.notified_first = 1 := by
  refine ⟨rfl, ?_⟩
  rw [checkAlert_below_tracked hlt hx htr]
  have hf1 : (!t0.alerted && delayElapsed now t0.first cfg.alertDelayMs)
      = true := by simp [ha, hd]
  by_cases hf2 : (!t0.second &&
      delayElapsed now t0.first cfg.secondAlertMs) = true
  · simp only [hf1, hf2, if_true]
    refine ⟨by simp, ⟨_, mapSet_self st.tracking name _, rfl⟩, ?_⟩
    intro a ha' han hao
    rcases mem_setNotifiedSecond ha' with ⟨b, hb, hbn, hbe, -, hbnf, -⟩
    exact hbnf ▸ setNotifiedFirst_open_self hb (hbn ▸ han) (hbe ▸ hao)
  · simp only [hf1, hf2, if_true, Bool.false_eq_true, if_false]
    refine ⟨by simp, ⟨_, mapSet_self st.tracking name _, rfl⟩, ?_⟩
    intro a ha' han hao
    exact setNotifiedFirst_open_self ha' han hao

/-- C8 witness: the concrete entity `"Q1"`, below threshold since
`t = 100000` ms, evaluated at `t = 700000` ms (past the 10-minute
delay). -/
theorem c8_channel_isolation_witness :
    sendAlertChannels
      [⟨"email", true, some "timeout"⟩, ⟨"chat", true, none⟩] =
      [⟨"email", false, some "timeout"⟩, ⟨"chat", true, none⟩] ∧
    (⟨"Q1", "first", JsNum.val 0, JsNum.val 10⟩ : Notification) ∈
      (checkAlert defaultConfig
        (checkAlert defaultConfig initState "Q1" (JsNum.val 0)
          (JsNum.val 10) 100000).1
        "Q1" (JsNum.val 0) (JsNum.val 10) 700000).2 ∧
    (∃ t', (checkAlert defaultConfig
        (checkAlert defaultConfig initState "Q1" (JsNum.val 0)
          (JsNum.val 10) 100000).1
        "Q1" (JsNum.val 0) (JsNum.val 10) 700000).1.tracking "Q1" =
        some t' ∧ t'.alerted = true) ∧
    ∀ a ∈ (checkAlert defaultConfig
        (checkAlert defaultConfig initState "Q1" (JsNum.val 0)
          (JsNum.val 10) 100000).1
        "Q1" (JsNum.val 0) (JsNum.val 10) 700000).1.alerts,
      a.name = "Q1" → a.end_time = none → a.notified_first = 1 :=
  c8_channel_isolation "timeout" defaultConfig
    ((checkAlert defaultConfig initState "Q1" (JsNum.val 0) (JsNum.val 10)
      100000).1) "Q1" (JsNum.val 0) (JsNum.val 10) 700000
    ⟨some 100000, false, false⟩ (by decide) (by decide) rfl (by decide)
    (by decide)

/-- C10: a queue row whose rate components fail to parse yields
`totalKb = NaN`; `NaN < threshold` is `false` for every threshold, so
`checkAlert` takes the above-threshold branch on that sample: it creates
no row and fires no escalation (the dispatch list is empty or a single
recovery request), it deletes the entity's tracking entry, and — the
entity's open row, if any, being closed by `resolveAlert` — afterwards no
open row for the entity remains. -/
theorem c10_nan_rate_recovers {cfg : Config} {st : AMState}
    {name : String} {rate : Option String} {thr : JsNum} {now : ℕ}
    (hreach : Reachable cfg st)
    (hnan : (parseRate rate).1 = JsNum.nan ∨
      (parseRate rate).2 = JsNum.nan) :
    totalKbOf rate = JsNum.nan ∧
    jsLt (totalKbOf rate) thr = false ∧
    (checkAlert cfg st name (totalKbOf rate) thr now).1.tracking name
      = none ∧
    (checkAlert cfg st name (totalKbOf rate) thr now).1.alerts.length
      = st.alerts.length ∧
    (∀ a ∈ (checkAlert cfg st name (totalKbOf rate) thr now).1.alerts,
      a.name = name → a.end_time ≠ none) ∧
    ((checkAlert cfg st name (totalKbOf rate) thr now).2 = [] ∨
     (checkAlert cfg st name (totalKbOf rate) thr now).2 =
       [⟨name, "recovery", JsNum.nan, JsNum.val 0⟩]) := by
  have htot : totalKbOf rate = JsNum.nan := by
    rcases hnan with h | h
    · rw [totalKbOf, h, jsAdd_nan_left]
      rfl
    · rw [totalKbOf, h, jsAdd_nan_right]
      rfl
  have hlt : jsLt (totalKbOf rate) thr = false := by
    rw [htot]
    exact jsLt_nan_left thr
  have hInv := reachable_inv hreach
  refine ⟨htot, hlt, ?_⟩
  cases hx : st.tracking name with
  | none =>
    rw [checkAlert_above_untracked hlt hx]
    exact ⟨mapDelete_self st.tracking name, rfl,
      fun a ha han => no_open_of_untracked hInv hx a ha han, Or.inl rfl⟩
  | some t0 =>
    have htr := hInv.trackTruthy name t0 hx
    rw [checkAlert_above_tracked hlt hx htr]
    refine ⟨mapDelete_self st.tracking name,
      List.length_map _ _, ?_, ?_⟩
    · intro a ha han hao
      have hnil := openFor_resolve_self st.alerts name (now / 1000)
      rw [openFor, List.filter_eq_nil_iff] at hnil
      exact hnil a ha (by rw [isOpenFor, decide_eq_true_eq]; exact ⟨han, hao⟩)
    · by_cases hr : cfg.sendRecoveryNotifications = true
      · rw [htot]
        simp [hr]
      · simp only [Bool.not_eq_true] at hr
        simp [hr]

/-- C10 witness: the reachable state with an open `"Q1"` alert, evaluated
on the sample parsed from the malformed rate string `"abc"`. -/
theorem c10_nan_rate_recovers_witness :
    totalKbOf (some "abc") = JsNum.nan ∧
    jsLt (totalKbOf (some "abc")) (JsNum.val 10) = false ∧
    (checkAlert defaultConfig
      (checkAlert defaultConfig initState "Q1" (JsNum.val 0) (JsNum.val 10)
        100000).1
      "Q1" (totalKbOf (some "abc")) (JsNum.val 10) 200000).1.tracking "Q1"
      = none ∧
    (checkAlert defaultConfig
      (checkAlert defaultConfig initState "Q1" (JsNum.val 0) (JsNum.val 10)
        100000).1
      "Q1" (totalKbOf (some "abc")) (JsNum.val 10) 200000).1.alerts.length
      = (checkAlert defaultConfig initState "Q1" (JsNum.val 0)
        (JsNum.val 10) 100000).1.alerts.length ∧
    (∀ a ∈ (checkAlert defaultConfig
      (checkAlert defaultConfig initState "Q1" (JsNum.val 0) (JsNum.val 10)
        100000).1
      "Q1" (totalKbOf (some "abc")) (JsNum.val 10) 200000).1.alerts,
      a.name = "Q1" → a.end_time ≠ none) ∧
    ((checkAlert defaultConfig
      (checkAlert defaultConfig initState "Q1" (JsNum.val 0) (JsNum.val 10)
        100000).1
      "Q1" (totalKbOf (some "abc")) (JsNum.val 10) 200000).2 = [] ∨
     (checkAlert defaultConfig
      (checkAlert defaultConfig initState "Q1" (JsNum.val 0) (JsNum.val 10)
        100000).1
      "Q1" (totalKbOf (some "abc")) (JsNum.val 10) 200000).2 =
       [⟨"Q1", "recovery", JsNum.nan, JsNum.val 0⟩]) :=
  c10_nan_rate_recovers
    (Reachable.step initState "Q1" (JsNum.val 0) (JsNum.val 10) 100000
      (@Reachable.init defaultConfig) (by norm_num))
    (Or.inl (by decide))

/-- C6: recovery round-trip.  From the empty start: the entity crosses
below threshold at `t1` (opening a row with `start_time = t1 / 1000`),
receives exactly the first alert at `t2` once the delay has elapsed,
recovers at `t3` on an at-or-above-threshold sample — its tracking entry
is removed and its row closed with the non-null `end_time = t3 / 1000` —
and a subsequent below-threshold sample at `t4` opens a *new* row whose
`start_time` is `t4 / 1000`, not the old `t1 / 1000`. -/
theorem c6_recovery_roundtrip (cfg : Config) (name : String)
    (kbLow kbHigh thr : JsNum) (t1 t2 t3 t4 : ℕ) (h1000 : 1000 ≤ t1)
    (hlow : jsLt kbLow thr = true) (hhigh : jsLt kbHigh thr = false)
    (hd0 : 0 < cfg.alertDelayMs)
    (hd1 : cfg.alertDelayMs ≤ (t2 : ℤ) - (t1 : ℤ))
    (hd2 : (t2 : ℤ) - (t1 : ℤ) < cfg.secondAlertMs)
    (hfresh : t1 / 1000 < t4 / 1000) :
    (checkAlert cfg (evalStep cfg initState name kbLow thr t1) name kbLow
      thr t2).2 = [⟨name, "first", kbLow, thr⟩] ∧
    (evalStep cfg (evalStep cfg (evalStep cfg initState name kbLow thr t1)
      name kbLow thr t2) name kbHigh thr t3).tracking name = none ∧
    (evalStep cfg (evalStep cfg (evalStep cfg initState name kbLow thr t1)
      name kbLow thr t2) name kbHigh thr t3).alerts =
      [⟨name, t1 / 1000, 1, 0, some (t3 / 1000)⟩] ∧
    (evalStep cfg (evalStep cfg (evalStep cfg (evalStep cfg initState name
      kbLow thr t1) name kbLow thr t2) name kbHigh thr t3) name kbLow thr
      t4).alerts =
      [⟨name, t1 / 1000, 1, 0, some (t3 / 1000)⟩,
       ⟨name, t4 / 1000, 0, 0, none⟩] ∧
    t4 / 1000 ≠ t1 / 1000 := by
  have hde1 : delayElapsed t1 (some t1) cfg.alertDelayMs = false := by
    simp only [delayElapsed, Option.getD_some, decide_eq_false_iff_not,
      not_le]
    omega
  have e1 : evalStep cfg initState name kbLow thr t1 =
      ⟨mapSet initState.tracking name ⟨some t1, false, false⟩,
        [⟨name, t1 / 1000, 0, 0, none⟩], []⟩ := by
    rw [evalStep, checkAlert_below_untracked hlow rfl]
    simp [hde1, createAlertRecord, initState]
  have htr1 : jsTruthy (some t1) = true := by
    simp only [jsTruthy, decide_eq_true_eq]
    omega
  have hde2 : delayElapsed t2 (some t1) cfg.alertDelayMs = true := by
    simp only [delayElapsed, Option.getD_some, decide_eq_true_eq]
    omega
  have hde2s : delayElapsed t2 (some t1) cfg.secondAlertMs = false := by
    simp only [delayElapsed, Option.getD_some, decide_eq_false_iff_not,
      not_le]
    omega
  have e2 : checkAlert cfg
      (⟨mapSet initState.tracking name ⟨some t1, false, false⟩,
        [⟨name, t1 / 1000, 0, 0, none⟩], []⟩ : AMState) name kbLow thr t2 =
      (⟨mapSet (mapSet initState.tracking name ⟨some t1, false, false⟩)
          name ⟨some t1, true, false⟩,
        [⟨name, t1 / 1000, 1, 0, none⟩],
        [⟨name, "first", kbLow, thr, t2 / 1000⟩]⟩,
       [⟨name, "first", kbLow, thr⟩]) := by
    rw [checkAlert_below_tracked hlow
      (mapSet_self initState.tracking name ⟨some t1, false, false⟩) htr1]
    simp [hde2, hde2s, setNotifiedFirst, recordHistory]
  have e3 : evalStep cfg
      (⟨mapSet (mapSet initState.tracking name ⟨some t1, false, false⟩)
          name ⟨some t1, true, false⟩,
        [⟨name, t1 / 1000, 1, 0, none⟩],
        [⟨name, "first", kbLow, thr, t2 / 1000⟩]⟩ : AMState) name kbHigh
      thr t3 =
      ⟨mapDelete (mapSet (mapSet initState.tracking name
          ⟨some t1, false, false⟩) name ⟨some t1, true, false⟩) name,
        [⟨name, t1 / 1000, 1, 0, some (t3 / 1000)⟩],
        [⟨name, "first", kbLow, thr, t2 / 1000⟩,
         ⟨name, "recovery", kbHigh, JsNum.val 0, t3 / 1000⟩]⟩ := by
    rw [evalStep, checkAlert_above_tracked hhigh
      (mapSet_self _ name ⟨some t1, true, false⟩) htr1]
    simp [resolveAlertRows, recordHistory]
  have hde4 : delayElapsed t4 (some t4) cfg.alertDelayMs = false := by
    simp only [delayElapsed, Option.getD_some, decide_eq_false_iff_not,
      not_le]
    omega
  have e4 : evalStep cfg
      (⟨mapDelete (mapSet (mapSet initState.tracking name
          ⟨some t1, false, false⟩) name ⟨some t1, true, false⟩) name,
        [⟨name, t1 / 1000, 1, 0, some (t3 / 1000)⟩],
        [⟨name, "first", kbLow, thr, t2 / 1000⟩,
         ⟨name, "recovery", kbHigh, JsNum.val 0, t3 / 1000⟩]⟩ : AMState)
      name kbLow thr t4 =
      ⟨mapSet (mapDelete (mapSet (mapSet initState.tracking name
          ⟨some t1, false, false⟩) name ⟨some t1, true, false⟩) name) name
          ⟨some t4, false, false⟩,
        [⟨name, t1 / 1000, 1, 0, some (t3 / 1000)⟩,
         ⟨name, t4 / 1000, 0, 0, none⟩],
        [⟨name, "first", kbLow, thr, t2 / 1000⟩,
         ⟨name, "recovery", kbHigh, JsNum.val 0, t3 / 1000⟩]⟩ := by
    rw [evalStep, checkAlert_below_untracked hlow
      (mapDelete_self _ name)]
    simp [hde4, createAlertRecord]
  have e2' : evalStep cfg
      (⟨mapSet initState.tracking name ⟨some t1, false, false⟩,
        [⟨name, t1 / 1000, 0, 0, none⟩], []⟩ : AMState) name kbLow thr t2 =
      ⟨mapSet (mapSet initState.tracking name ⟨some t1, false, false⟩)
          name ⟨some t1, true, false⟩,
        [⟨name, t1 / 1000, 1, 0, none⟩],
        [⟨name, "first", kbLow, thr, t2 / 1000⟩]⟩ := by
    rw [evalStep, e2]
  refine ⟨?_, ?_, ?_, ?_, by omega⟩
  · rw [e1, e2]
  · rw [e1, e2', e3]
    exact mapDelete_self _ name
  · rw [e1, e2', e3]
  · rw [e1, e2', e3, e4]

/-- C6 witness: the round-trip at concrete times with the default
configuration: crossing at `t₁ = 100000` ms, first alert at
`t₂ = 700000` ms, recovery at `t₃ = 800000` ms, renewed crossing at
`t₄ = 2000000` ms. -/
theorem c6_recovery_roundtrip_witness :
    (checkAlert defaultConfig (evalStep defaultConfig initState "Q1"
      (JsNum.val 0) (JsNum.val 10) 100000) "Q1" (JsNum.val 0)
      (JsNum.val 10) 700000).2 =
      [⟨"Q1", "first", JsNum.val 0, JsNum.val 10⟩] ∧
    (evalStep defaultConfig (evalStep defaultConfig (evalStep defaultConfig
      initState "Q1" (JsNum.val 0) (JsNum.val 10) 100000) "Q1"
      (JsNum.val 0) (JsNum.val 10) 700000) "Q1" (JsNum.val 20)
      (JsNum.val 10) 800000).tracking "Q1" = none ∧
    (evalStep defaultConfig (evalStep defaultConfig (evalStep defaultConfig
      initState "Q1" (JsNum.val 0) (JsNum.val 10) 100000) "Q1"
      (JsNum.val 0) (JsNum.val 10) 700000) "Q1" (JsNum.val 20)
      (JsNum.val 10) 800000).alerts = [⟨"Q1", 100, 1, 0, some 800⟩] ∧
    (evalStep defaultConfig (evalStep defaultConfig (evalStep defaultConfig
      (evalStep defaultConfig initState "Q1" (JsNum.val 0) (JsNum.val 10)
        100000) "Q1" (JsNum.val 0) (JsNum.val 10) 700000) "Q1"
      (JsNum.val 20) (JsNum.val 10) 800000) "Q1" (JsNum.val 0)
      (JsNum.val 10) 2000000).alerts =
      [⟨"Q1", 100, 1, 0, some 800⟩, ⟨"Q1", 2000, 0, 0, none⟩] ∧
    (2000000 : ℕ) / 1000 ≠ (100000 : ℕ) / 1000 :=
  c6_recovery_roundtrip defaultConfig "Q1" (JsNum.val 0) (JsNum.val 20)
    (JsNum.val 10) 100000 700000 800000 2000000 (by norm_num) (by decide)
    (by decide) (by norm_num [defaultConfig]) (by norm_num [defaultConfig])
    (by norm_num [defaultConfig]) (by norm_num)

end G2G
